import Mathlib

/-!
# Per-frame scene synchronisation of the renderer (`render.c`)

A shallow embedding of the dirty-counter state machine of `render.c`:
the five `uint8_t` counters, the host memory behind the per-slot uniform
regions, the per-slot texture bindings and the per-slot recorded command
sequences, together with
`syncScene`, `mainRender`, `updateRenderCommands`, `onSwapchainRecreate`,
`r_InitRenderer` and `r_BindScene`.

Conventions of the embedding.

* The module's `static` variables are the fields of `Renderer`; the three
  arrays of buffer regions are represented by what their `hostData` pointers
  address, `Renderer.hostMemory`.
* `scene` is a pointer to a `const` scene owned by the caller; every function
  that dereferences it takes the pointee's current content as the argument
  `sc` and returns no scene: the code cannot write through the pointer.
* `uint8_t` counters are naturals; a store of `TANTO_FRAME_COUNT` is taken
  modulo 256 and `x--` is `(x + 255) % 256`. Scene counts, slot indices and
  loop indices are naturals.
* Every region is a sub-range of a buffer shared with the other regions,
  sized for one `Camera`, one `Xforms` (`MAX_PRIM_COUNT` matrices) or one
  `Lights` (`TANTO_S_MAX_LIGHTS` lights); `HostMemory` holds exactly these
  cells, and regions obtained from separate `tanto_v_RequestBufferRegion`
  calls do not overlap. `updateXform` and `updateLight` perform no bounds
  check: a write whose index is past the array leaves the slot's region, and
  where it lands in the shared buffer depends on a layout this file does not
  fix. From then on the content of the host memory is not described:
  `Renderer.hostMemory` is `none`. The call itself goes on and returns.
* `assert` failures abort: functions that can reach one return `Except Fault`.
* Values produced by the graphics library (handles, fresh regions) are
  arguments; constants of the `tanto` headers are the fields of `Config`,
  except `TANTO_S_MAX_LIGHTS`, which is the parameter `maxLights` of the
  types that contain a `Lights` block.
* Every `update*` helper appends a record of its call to `Renderer.log`.
-/

namespace Render

/-- The value of `#define MAX_PRIM_COUNT 16`. -/
def MAX_PRIM_COUNT : Nat := 16

/-- Constants and pure helpers that `render.c` takes from the `tanto` and
`coal` headers: frame count, the "no texture" id, the four dirt bits,
`m_BuildPerspective(0.001, 100)` and `m_Invert4x4`. -/
structure Config (M : Type) where
  TANTO_FRAME_COUNT : Nat
  TANTO_S_NONE : Nat
  TANTO_S_CAMERA_BIT : Nat
  TANTO_S_LIGHTS_BIT : Nat
  TANTO_S_XFORMS_BIT : Nat
  TANTO_S_TEXTURES_BIT : Nat
  m_BuildPerspective : M
  m_Invert4x4 : M → M

/-- The fields of `Tanto_V_Image` that `updateTexture` reads. -/
structure Tanto_V_Image where
  layout : Nat
  view : Nat
  sampler : Nat
deriving DecidableEq, Repr

/-- A material: the two texture ids `mainRender` asserts on, and the rest of
the shading parameters. -/
structure Tanto_S_Material (K : Type) where
  textureAlbedo : Nat
  textureRoughness : Nat
  shading : K
deriving DecidableEq, Repr

/-- A scene primitive: its render primitive and its material id. -/
structure Tanto_S_Primitive (G : Type) where
  rprim : G
  materialId : Nat
deriving DecidableEq, Repr

/-- The fields of `Tanto_S_Scene` that `render.c` reads. `camera` is
`scene->camera.xform`, `textures i` is `scene->textures[i].devImage`. -/
structure Tanto_S_Scene (M L G K : Type) where
  dirt : Nat
  camera : M
  primCount : Nat
  lightCount : Nat
  textureCount : Nat
  xforms : Nat → M
  lights : Nat → L
  prims : Nat → Tanto_S_Primitive G
  materials : Nat → Tanto_S_Material K
  textures : Nat → Tanto_V_Image

/-- The uniform block `Camera`. -/
structure Camera (M : Type) where
  view : M
  proj : M
  camera : M
deriving DecidableEq, Repr

/-- The uniform block `Xforms`: `Mat4 xform[MAX_PRIM_COUNT]`. -/
structure Xforms (M : Type) where
  xform : Fin MAX_PRIM_COUNT → M

/-- The uniform block `Lights`: `Light light[TANTO_S_MAX_LIGHTS]`, with
`maxLights` the value of `TANTO_S_MAX_LIGHTS`. -/
structure Lights (L : Type) (maxLights : Nat) where
  light : Fin maxLights → L

/-- The host memory behind `cameraBuffers[i]`, `xformsBuffers[i]` and
`lightsBuffers[i]`: per slot one `Camera`, one `Xforms` and one `Lights`
block, and no other cell. -/
structure HostMemory (M L : Type) (maxLights : Nat) where
  cameraBuffers : Nat → Camera M
  xformsBuffers : Nat → Xforms M
  lightsBuffers : Nat → Lights L maxLights

/-- Commands recorded by `mainRender`, in the order of the `vkCmd*` calls. -/
inductive Cmd (G K : Type) where
  | bindPipeline (pipeline : Nat)
  | bindDescriptorSets (layout : Nat) (set : Nat)
  | beginRenderPass (renderpass : Nat) (framebuffer : Nat)
  | pushLightCount (layout : Nat) (lightCount : Nat)
  | pushPrimId (layout : Nat) (p : Nat)
  | pushMaterial (layout : Nat) (m : Tanto_S_Material K)
  | drawPrim (rprim : G)
  | endRenderPass
deriving DecidableEq, Repr

/-- Call records of the `update*` helpers. -/
inductive Event where
  | updateCamera (index : Nat)
  | updateXform (frameIndex : Nat) (primIndex : Nat)
  | updateLight (frameIndex : Nat) (lightIndex : Nat)
  | updateTexture (frameIndex : Nat) (texId : Nat)
  | updateRenderCommands (frameIndex : Nat)
deriving DecidableEq, Repr

/-- The three assertions of `mainRender`. -/
inductive Fault where
  | primCount
  | textureAlbedo (p : Nat)
  | textureRoughness (p : Nat)
deriving DecidableEq, Repr

/-- The module state: the `static` variables of `render.c`. `hostMemory` is
the content of the regions' host memory, or `none` once a write has left its
region. `textures f i` is array element `i` of binding 3 of
`description[f]`'s descriptor set. -/
structure Renderer (M L G K : Type) (maxLights : Nat) where
  cameraNeedUpdate : Nat
  framesNeedUpdate : Nat
  xformsNeedUpdate : Nat
  lightsNeedUpdate : Nat
  texturesNeedUpdate : Nat
  hostMemory : Option (HostMemory M L maxLights)
  textures : Nat → Nat → Option Tanto_V_Image
  renderCommands : Nat → List (Cmd G K)
  renderTargetDepth : Nat
  renderpass : Nat
  framebuffers : Nat → Nat
  mainPipeline : Nat
  pipelineLayout : Nat
  descriptorSets : Nat → Nat
  log : List Event

/-- What the graphics library returns for the creation calls of one
initialisation or swapchain rebuild. -/
structure Created (M L : Type) (maxLights : Nat) where
  depthImage : Nat
  renderpass : Nat
  framebuffer : Nat → Nat
  pipeline : Nat
  pipelineLayout : Nat
  descriptorSet : Nat → Nat
  cameraRegion : Nat → Camera M
  xformsRegion : Nat → Xforms M
  lightsRegion : Nat → Lights L maxLights

variable {M L G K : Type} {maxLights : Nat}

/-! ## The functions of `render.c` -/

/-- `initAttachments`: a new depth target. -/
def initAttachments (ext : Created M L maxLights) (st : Renderer M L G K maxLights) : Renderer M L G K maxLights :=
  { st with renderTargetDepth := ext.depthImage }

/-- `initRenderPass`. -/
def initRenderPass (ext : Created M L maxLights) (st : Renderer M L G K maxLights) : Renderer M L G K maxLights :=
  { st with renderpass := ext.renderpass }

/-- `initFramebuffers`: one framebuffer per frame slot. -/
def initFramebuffers (cfg : Config M) (ext : Created M L maxLights) (st : Renderer M L G K maxLights) :
    Renderer M L G K maxLights :=
  { st with framebuffers := fun i =>
      if i < cfg.TANTO_FRAME_COUNT then ext.framebuffer i else st.framebuffers i }

/-- `initDescriptorSetsAndPipelineLayouts`: a fresh descriptor set per slot
(no texture bound yet) and the pipeline layout. -/
def initDescriptorSetsAndPipelineLayouts (cfg : Config M) (ext : Created M L maxLights)
    (st : Renderer M L G K maxLights) : Renderer M L G K maxLights :=
  { st with
    descriptorSets := fun i =>
      if i < cfg.TANTO_FRAME_COUNT then ext.descriptorSet i else st.descriptorSets i
    textures := fun i =>
      if i < cfg.TANTO_FRAME_COUNT then fun _ => none else st.textures i
    pipelineLayout := ext.pipelineLayout }

/-- `initPipelines`: the main pipeline, built for the bound scene's vertex
layout. -/
def initPipelines (pipeline : Nat) (st : Renderer M L G K maxLights) : Renderer M L G K maxLights :=
  { st with mainPipeline := pipeline }

/-- `updateDescriptors`: requests the three regions of every slot and binds
them. -/
def updateDescriptors (cfg : Config M) (ext : Created M L maxLights) (st : Renderer M L G K maxLights) :
    Renderer M L G K maxLights :=
  { st with
    hostMemory := st.hostMemory.map fun m =>
      { cameraBuffers := fun i =>
          if i < cfg.TANTO_FRAME_COUNT then ext.cameraRegion i else m.cameraBuffers i
        xformsBuffers := fun i =>
          if i < cfg.TANTO_FRAME_COUNT then ext.xformsRegion i else m.xformsBuffers i
        lightsBuffers := fun i =>
          if i < cfg.TANTO_FRAME_COUNT then ext.lightsRegion i else m.lightsBuffers i } }

/-- `updateTexture`: writes array element `texId` of binding 3 of slot
`frameIndex`. -/
def updateTexture (frameIndex : Nat) (img : Tanto_V_Image) (texId : Nat)
    (st : Renderer M L G K maxLights) : Renderer M L G K maxLights :=
  { st with
    textures := Function.update st.textures frameIndex
      (Function.update (st.textures frameIndex) texId (some img))
    log := st.log ++ [Event.updateTexture frameIndex texId] }

/-- The body of the `for` loop of `mainRender` run over the primitive indices
`ps`, appending to the commands `acc` recorded so far. -/
def mainRender_prims (cfg : Config M) (sc : Tanto_S_Scene M L G K) (layout : Nat) :
    List Nat → List (Cmd G K) → Except Fault (List (Cmd G K))
  | [], acc => .ok acc
  | p :: ps, acc =>
    let matId := (sc.prims p).materialId
    if (sc.materials matId).textureAlbedo = cfg.TANTO_S_NONE then
      .error (Fault.textureAlbedo p)
    else if (sc.materials matId).textureRoughness = cfg.TANTO_S_NONE then
      .error (Fault.textureRoughness p)
    else
      mainRender_prims cfg sc layout ps
        (acc ++ [Cmd.pushPrimId layout p, Cmd.pushMaterial layout (sc.materials matId),
                 Cmd.drawPrim (sc.prims p).rprim])

/-- `mainRender`: the commands recorded into the slot's command buffer. -/
def mainRender (cfg : Config M) (sc : Tanto_S_Scene M L G K) (frameIndex : Nat)
    (st : Renderer M L G K maxLights) : Except Fault (List (Cmd G K)) :=
  let cmds : List (Cmd G K) :=
    [Cmd.bindPipeline st.mainPipeline,
     Cmd.bindDescriptorSets st.pipelineLayout (st.descriptorSets frameIndex),
     Cmd.beginRenderPass st.renderpass (st.framebuffers frameIndex),
     Cmd.pushLightCount st.pipelineLayout sc.lightCount]
  if sc.primCount < MAX_PRIM_COUNT then
    match mainRender_prims cfg sc st.pipelineLayout (List.range sc.primCount) cmds with
    | .error e => .error e
    | .ok cmds => .ok (cmds ++ [Cmd.endRenderPass])
  else
    .error Fault.primCount

/-- `updateRenderCommands`: resets the slot's command buffer and records it
anew. -/
def updateRenderCommands (cfg : Config M) (sc : Tanto_S_Scene M L G K) (frameIndex : Nat)
    (st : Renderer M L G K maxLights) : Except Fault (Renderer M L G K maxLights) :=
  match mainRender cfg sc frameIndex st with
  | .error e => .error e
  | .ok cmds =>
    .ok { st with
          renderCommands := Function.update st.renderCommands frameIndex cmds
          log := st.log ++ [Event.updateRenderCommands frameIndex] }

/-- `r_CleanUp`: destroys the framebuffers, the depth image and the pipeline;
no `static` variable is assigned. -/
def r_CleanUp (st : Renderer M L G K maxLights) : Renderer M L G K maxLights := st

/-- `onSwapchainRecreate`. -/
def onSwapchainRecreate (cfg : Config M) (ext : Created M L maxLights) (st : Renderer M L G K maxLights) :
    Renderer M L G K maxLights :=
  let st := r_CleanUp st
  let st := initAttachments ext st
  let st := initPipelines ext.pipeline st
  let st := initFramebuffers cfg ext st
  { st with framesNeedUpdate := cfg.TANTO_FRAME_COUNT % 256 }

/-- `updateCamera`: the three members of the slot's `Camera` block. -/
def updateCamera (cfg : Config M) (sc : Tanto_S_Scene M L G K) (index : Nat)
    (st : Renderer M L G K maxLights) : Renderer M L G K maxLights :=
  { st with
    hostMemory := st.hostMemory.map fun m =>
      { m with
        cameraBuffers := Function.update m.cameraBuffers index
          { view := cfg.m_Invert4x4 sc.camera, proj := cfg.m_BuildPerspective,
            camera := sc.camera } }
    log := st.log ++ [Event.updateCamera index] }

/-- `updateXform`: `xforms->xform[primIndex] = scene->xforms[primIndex]`,
unchecked. With `primIndex` below `MAX_PRIM_COUNT` the write is to that cell
of the slot's `Xforms` block; otherwise it leaves the block. -/
def updateXform (sc : Tanto_S_Scene M L G K) (frameIndex primIndex : Nat)
    (st : Renderer M L G K maxLights) : Renderer M L G K maxLights :=
  { st with
    hostMemory :=
      if h : primIndex < MAX_PRIM_COUNT then
        st.hostMemory.map fun m =>
          { m with
            xformsBuffers := Function.update m.xformsBuffers frameIndex
              { xform := Function.update (m.xformsBuffers frameIndex).xform ⟨primIndex, h⟩
                  (sc.xforms primIndex) } }
      else none
    log := st.log ++ [Event.updateXform frameIndex primIndex] }

/-- `updateLight`: `lights->light[lightIndex] = scene->lights[lightIndex]`,
unchecked. With `lightIndex` below `TANTO_S_MAX_LIGHTS` the write is to that
cell of the slot's `Lights` block; otherwise it leaves the block. -/
def updateLight (sc : Tanto_S_Scene M L G K) (frameIndex lightIndex : Nat)
    (st : Renderer M L G K maxLights) : Renderer M L G K maxLights :=
  { st with
    hostMemory :=
      if h : lightIndex < maxLights then
        st.hostMemory.map fun m =>
          { m with
            lightsBuffers := Function.update m.lightsBuffers frameIndex
              { light := Function.update (m.lightsBuffers frameIndex).light ⟨lightIndex, h⟩
                  (sc.lights lightIndex) } }
      else none
    log := st.log ++ [Event.updateLight frameIndex lightIndex] }

/-- Lines 402-414 of `syncScene`: the dirt bits mark the counters. -/
def syncScene_dirt (cfg : Config M) (sc : Tanto_S_Scene M L G K) (st : Renderer M L G K maxLights) :
    Renderer M L G K maxLights :=
  if sc.dirt ≠ 0 then
    let st := if sc.dirt &&& cfg.TANTO_S_CAMERA_BIT ≠ 0 then
      { st with cameraNeedUpdate := cfg.TANTO_FRAME_COUNT % 256 } else st
    let st := if sc.dirt &&& cfg.TANTO_S_LIGHTS_BIT ≠ 0 then
      { st with lightsNeedUpdate := cfg.TANTO_FRAME_COUNT % 256 } else st
    let st := if sc.dirt &&& cfg.TANTO_S_XFORMS_BIT ≠ 0 then
      { st with xformsNeedUpdate := cfg.TANTO_FRAME_COUNT % 256 } else st
    if sc.dirt &&& cfg.TANTO_S_TEXTURES_BIT ≠ 0 then
      { st with framesNeedUpdate := cfg.TANTO_FRAME_COUNT % 256
                texturesNeedUpdate := cfg.TANTO_FRAME_COUNT % 256 }
    else st
  else st

/-- Lines 415-419 of `syncScene`. -/
def syncScene_camera (cfg : Config M) (sc : Tanto_S_Scene M L G K) (frameIndex : Nat)
    (st : Renderer M L G K maxLights) : Renderer M L G K maxLights :=
  if st.cameraNeedUpdate ≠ 0 then
    let st := updateCamera cfg sc frameIndex st
    { st with cameraNeedUpdate := (st.cameraNeedUpdate + 255) % 256 }
  else st

/-- Lines 420-425 of `syncScene`. -/
def syncScene_xforms (sc : Tanto_S_Scene M L G K) (frameIndex : Nat)
    (st : Renderer M L G K maxLights) : Renderer M L G K maxLights :=
  if st.xformsNeedUpdate ≠ 0 then
    let st := (List.range sc.primCount).foldl (fun s i => updateXform sc frameIndex i s) st
    { st with xformsNeedUpdate := (st.xformsNeedUpdate + 255) % 256 }
  else st

/-- Lines 426-431 of `syncScene`. -/
def syncScene_lights (sc : Tanto_S_Scene M L G K) (frameIndex : Nat)
    (st : Renderer M L G K maxLights) : Renderer M L G K maxLights :=
  if st.lightsNeedUpdate ≠ 0 then
    let st := (List.range sc.lightCount).foldl (fun s i => updateLight sc frameIndex i s) st
    { st with lightsNeedUpdate := (st.lightsNeedUpdate + 255) % 256 }
  else st

/-- Lines 432-440 of `syncScene`. -/
def syncScene_textures (sc : Tanto_S_Scene M L G K) (frameIndex : Nat)
    (st : Renderer M L G K maxLights) : Renderer M L G K maxLights :=
  if st.texturesNeedUpdate ≠ 0 then
    let st := (List.range sc.textureCount).foldl
      (fun s i => updateTexture frameIndex (sc.textures i) i s) st
    { st with texturesNeedUpdate := (st.texturesNeedUpdate + 255) % 256 }
  else st

/-- Lines 441-445 of `syncScene`. -/
def syncScene_frames (cfg : Config M) (sc : Tanto_S_Scene M L G K) (frameIndex : Nat)
    (st : Renderer M L G K maxLights) : Except Fault (Renderer M L G K maxLights) :=
  if st.framesNeedUpdate ≠ 0 then
    match updateRenderCommands cfg sc frameIndex st with
    | .error e => .error e
    | .ok st => .ok { st with framesNeedUpdate := (st.framesNeedUpdate + 255) % 256 }
  else .ok st

/-- `syncScene`: its six consecutive blocks in source order. -/
def syncScene (cfg : Config M) (frameIndex : Nat) (sc : Tanto_S_Scene M L G K)
    (st : Renderer M L G K maxLights) : Except Fault (Renderer M L G K maxLights) :=
  let st := syncScene_dirt cfg sc st
  let st := syncScene_camera cfg sc frameIndex st
  let st := syncScene_xforms sc frameIndex st
  let st := syncScene_lights sc frameIndex st
  let st := syncScene_textures sc frameIndex st
  syncScene_frames cfg sc frameIndex st

/-- `r_InitRenderer`. -/
def r_InitRenderer (cfg : Config M) (ext : Created M L maxLights) (st : Renderer M L G K maxLights) :
    Renderer M L G K maxLights :=
  let st := { st with
    cameraNeedUpdate := cfg.TANTO_FRAME_COUNT % 256
    xformsNeedUpdate := cfg.TANTO_FRAME_COUNT % 256
    framesNeedUpdate := cfg.TANTO_FRAME_COUNT % 256
    texturesNeedUpdate := cfg.TANTO_FRAME_COUNT % 256 }
  let st := { st with renderCommands := fun i =>
    if i < cfg.TANTO_FRAME_COUNT then [] else st.renderCommands i }
  let st := initAttachments ext st
  let st := initRenderPass ext st
  let st := initFramebuffers cfg ext st
  let st := initDescriptorSetsAndPipelineLayouts cfg ext st
  updateDescriptors cfg ext st

/-- `r_Render`, with `f` the slot returned by `tanto_r_RequestFrame`; the
fence wait, the submission and the presentation touch no module state. -/
def r_Render (cfg : Config M) (f : Nat) (sc : Tanto_S_Scene M L G K)
    (st : Renderer M L G K maxLights) : Except Fault (Renderer M L G K maxLights) :=
  syncScene cfg f sc st

/-- `r_BindScene`: `scene = pScene; initPipelines()`. -/
def r_BindScene (pipeline : Nat) (st : Renderer M L G K maxLights) : Renderer M L G K maxLights :=
  initPipelines pipeline st

/-- Modelled from the spec: `tanto_r_RequestFrame` is not part of this file;
the spec has it select the next slot round-robin, the index wrapping modulo
N. `renderFrom cfg frame scenes st` renders one frame per element of `scenes`
(the bound scene's content at that frame), frame number `frame + k` using
slot `(frame + k) % N`. -/
def renderFrom (cfg : Config M) : Nat → List (Tanto_S_Scene M L G K) →
    Renderer M L G K maxLights → Except Fault (Renderer M L G K maxLights)
  | _, [], st => .ok st
  | frame, sc :: rest, st =>
    match r_Render cfg (frame % cfg.TANTO_FRAME_COUNT) sc st with
    | .error e => .error e
    | .ok st => renderFrom cfg (frame + 1) rest st

/-- The state of the `static` variables at program start (zero-initialised). -/
def Renderer.zero [Inhabited M] [Inhabited L] : Renderer M L G K maxLights where
  cameraNeedUpdate := 0
  framesNeedUpdate := 0
  xformsNeedUpdate := 0
  lightsNeedUpdate := 0
  texturesNeedUpdate := 0
  hostMemory := some
    { cameraBuffers := fun _ => { view := default, proj := default, camera := default }
      xformsBuffers := fun _ => { xform := fun _ => default }
      lightsBuffers := fun _ => { light := fun _ => default } }
  textures := fun _ _ => none
  renderCommands := fun _ => []
  renderTargetDepth := 0
  renderpass := 0
  framebuffers := fun _ => 0
  mainPipeline := 0
  pipelineLayout := 0
  descriptorSets := fun _ => 0
  log := []

/-! ## Predicates and closed forms used by the theorems -/

/-- The assertions of `mainRender` as a predicate on the scene. -/
def recordable (cfg : Config M) (sc : Tanto_S_Scene M L G K) : Prop :=
  sc.primCount < MAX_PRIM_COUNT ∧
  ∀ p, p < sc.primCount →
    (sc.materials (sc.prims p).materialId).textureAlbedo ≠ cfg.TANTO_S_NONE ∧
    (sc.materials (sc.prims p).materialId).textureRoughness ≠ cfg.TANTO_S_NONE

instance (cfg : Config M) (sc : Tanto_S_Scene M L G K) : Decidable (recordable cfg sc) := by
  unfold recordable; infer_instance

/-- The marking step on one counter: a set dirt bit stores
`TANTO_FRAME_COUNT` into the `uint8_t`. -/
def mark (n bit dirt old : Nat) : Nat :=
  if dirt &&& bit ≠ 0 then n % 256 else old

/-- The guarded `x--` of a `uint8_t` counter. -/
def dec (c : Nat) : Nat :=
  if c ≠ 0 then (c + 255) % 256 else c

/-- The camera block of slot `f` after `updateCamera`. -/
def writeCamera (cfg : Config M) (sc : Tanto_S_Scene M L G K) (f : Nat)
    (m : HostMemory M L maxLights) : HostMemory M L maxLights :=
  { m with
    cameraBuffers := Function.update m.cameraBuffers f
      { view := cfg.m_Invert4x4 sc.camera, proj := cfg.m_BuildPerspective,
        camera := sc.camera } }

/-- The `Xforms` block of slot `f` after in-range writes of the cells below
`primCount`. -/
def writeXforms (sc : Tanto_S_Scene M L G K) (f : Nat)
    (m : HostMemory M L maxLights) : HostMemory M L maxLights :=
  { m with
    xformsBuffers := Function.update m.xformsBuffers f
      { xform := fun q =>
          if q.val < sc.primCount then sc.xforms q.val else (m.xformsBuffers f).xform q } }

/-- The `Lights` block of slot `f` after in-range writes of the cells below
`lightCount`. -/
def writeLights (sc : Tanto_S_Scene M L G K) (f : Nat)
    (m : HostMemory M L maxLights) : HostMemory M L maxLights :=
  { m with
    lightsBuffers := Function.update m.lightsBuffers f
      { light := fun q =>
          if q.val < sc.lightCount then sc.lights q.val else (m.lightsBuffers f).light q } }

/-- The host memory after the camera block of `syncScene`, `c` being the
camera counter after marking. -/
def cameraStage (cfg : Config M) (sc : Tanto_S_Scene M L G K) (f c : Nat)
    (mem : Option (HostMemory M L maxLights)) : Option (HostMemory M L maxLights) :=
  if c ≠ 0 then mem.map (writeCamera cfg sc f) else mem

/-- The host memory after the xforms block of `syncScene`, `c` being the
xforms counter after marking: with more than `MAX_PRIM_COUNT` primitives the
loop writes past the `Xforms` block. -/
def xformsStage (sc : Tanto_S_Scene M L G K) (f c : Nat)
    (mem : Option (HostMemory M L maxLights)) : Option (HostMemory M L maxLights) :=
  if c ≠ 0 then
    if sc.primCount ≤ MAX_PRIM_COUNT then mem.map (writeXforms sc f) else none
  else mem

/-- The host memory after the lights block of `syncScene`, `c` being the
lights counter after marking: with more than `TANTO_S_MAX_LIGHTS` lights the
loop writes past the `Lights` block. -/
def lightsStage (sc : Tanto_S_Scene M L G K) (f c : Nat)
    (mem : Option (HostMemory M L maxLights)) : Option (HostMemory M L maxLights) :=
  if c ≠ 0 then
    if sc.lightCount ≤ maxLights then mem.map (writeLights sc f) else none
  else mem

/-- The host memory `m` after the camera, xforms and lights blocks of a
`syncScene` call whose writes all stay inside their blocks. -/
def written (cfg : Config M) (f : Nat) (sc : Tanto_S_Scene M L G K)
    (st : Renderer M L G K maxLights) (m : HostMemory M L maxLights) :
    HostMemory M L maxLights :=
  let m1 :=
    if mark cfg.TANTO_FRAME_COUNT cfg.TANTO_S_CAMERA_BIT sc.dirt st.cameraNeedUpdate ≠ 0
    then writeCamera cfg sc f m else m
  let m2 :=
    if mark cfg.TANTO_FRAME_COUNT cfg.TANTO_S_XFORMS_BIT sc.dirt st.xformsNeedUpdate ≠ 0
    then writeXforms sc f m1 else m1
  if mark cfg.TANTO_FRAME_COUNT cfg.TANTO_S_LIGHTS_BIT sc.dirt st.lightsNeedUpdate ≠ 0
  then writeLights sc f m2 else m2

/-- The state of `syncScene` at line 441: after the dirt, camera, xforms,
lights and textures blocks, before the command-sequence block. -/
def beforeFrames (cfg : Config M) (f : Nat) (sc : Tanto_S_Scene M L G K)
    (st : Renderer M L G K maxLights) : Renderer M L G K maxLights :=
  syncScene_textures sc f (syncScene_lights sc f (syncScene_xforms sc f
    (syncScene_camera cfg sc f (syncScene_dirt cfg sc st))))

/-- Call records appended by the first five blocks of `syncScene`. -/
def beforeFramesEvents (cfg : Config M) (f : Nat) (sc : Tanto_S_Scene M L G K)
    (st : Renderer M L G K maxLights) : List Event :=
  (if mark cfg.TANTO_FRAME_COUNT cfg.TANTO_S_CAMERA_BIT sc.dirt st.cameraNeedUpdate ≠ 0
    then [Event.updateCamera f] else []) ++
  ((if mark cfg.TANTO_FRAME_COUNT cfg.TANTO_S_XFORMS_BIT sc.dirt st.xformsNeedUpdate ≠ 0
    then (List.range sc.primCount).map (Event.updateXform f) else []) ++
  ((if mark cfg.TANTO_FRAME_COUNT cfg.TANTO_S_LIGHTS_BIT sc.dirt st.lightsNeedUpdate ≠ 0
    then (List.range sc.lightCount).map (Event.updateLight f) else []) ++
  (if mark cfg.TANTO_FRAME_COUNT cfg.TANTO_S_TEXTURES_BIT sc.dirt st.texturesNeedUpdate ≠ 0
    then (List.range sc.textureCount).map (Event.updateTexture f) else [])))

/-- The three commands recorded for primitive `p`: its index, its material,
its draw call. -/
def primCommands (sc : Tanto_S_Scene M L G K) (layout : Nat) (p : Nat) : List (Cmd G K) :=
  [Cmd.pushPrimId layout p, Cmd.pushMaterial layout (sc.materials (sc.prims p).materialId),
   Cmd.drawPrim (sc.prims p).rprim]

/-- The command sequence as the specification words it: bind pipeline, bind
the slot's descriptor set, begin the render pass, push the light count once,
then per primitive in increasing order its three commands, then end the
render pass. -/
def recording (sc : Tanto_S_Scene M L G K) (f : Nat) (st : Renderer M L G K maxLights) :
    List (Cmd G K) :=
  [Cmd.bindPipeline st.mainPipeline,
   Cmd.bindDescriptorSets st.pipelineLayout (st.descriptorSets f),
   Cmd.beginRenderPass st.renderpass (st.framebuffers f),
   Cmd.pushLightCount st.pipelineLayout sc.lightCount] ++
  (List.range sc.primCount).flatMap (primCommands sc st.pipelineLayout) ++
  [Cmd.endRenderPass]

/-- Recognises a push of the light count. -/
def Cmd.isPushLightCount : Cmd G K → Bool
  | .pushLightCount _ _ => true
  | _ => false

/-- Recognises a draw call. -/
def Cmd.isDrawPrim : Cmd G K → Bool
  | .drawPrim _ => true
  | _ => false

/-! ## Example data -/

/-- Example constants: two frame slots, dirt bits 1, 2, 4, 8. The examples
use eight for `TANTO_S_MAX_LIGHTS`. -/
def exConfig : Config Nat where
  TANTO_FRAME_COUNT := 2
  TANTO_S_NONE := 4294967295
  TANTO_S_CAMERA_BIT := 1
  TANTO_S_LIGHTS_BIT := 2
  TANTO_S_XFORMS_BIT := 4
  TANTO_S_TEXTURES_BIT := 8
  m_BuildPerspective := 7
  m_Invert4x4 := fun m => m + 100

/-- Example scene with two textured primitives, one light and two textures,
with the given dirt mask. -/
def exScene (dirt : Nat) : Tanto_S_Scene Nat Nat Nat Nat where
  dirt := dirt
  camera := 5
  primCount := 2
  lightCount := 1
  textureCount := 2
  xforms := fun p => 10 + p
  lights := fun l => 20 + l
  prims := fun p => { rprim := 30 + p, materialId := p }
  materials := fun m => { textureAlbedo := 0, textureRoughness := 1, shading := 40 + m }
  textures := fun i => { layout := 1, view := 50 + i, sampler := 60 }

/-- Example scene with textured materials and the given dirt mask, primitive
count and light count. -/
def exCrowdedScene (dirt primCount lightCount : Nat) : Tanto_S_Scene Nat Nat Nat Nat where
  dirt := dirt
  camera := 5
  primCount := primCount
  lightCount := lightCount
  textureCount := 2
  xforms := fun p => 10 + p
  lights := fun l => 20 + l
  prims := fun p => { rprim := 30 + p, materialId := p }
  materials := fun m => { textureAlbedo := 0, textureRoughness := 1, shading := 40 + m }
  textures := fun i => { layout := 1, view := 50 + i, sampler := 60 }

/-- Example state: the zero-initialised statics with the given counters
(camera, frames, xforms, lights, textures). -/
def exState (c fr x l t : Nat) : Renderer Nat Nat Nat Nat 8 :=
  { (Renderer.zero : Renderer Nat Nat Nat Nat 8) with
    cameraNeedUpdate := c
    framesNeedUpdate := fr
    xformsNeedUpdate := x
    lightsNeedUpdate := l
    texturesNeedUpdate := t }

/-- Example results of the graphics library's creation calls. -/
def exCreated : Created Nat Nat 8 where
  depthImage := 1
  renderpass := 2
  framebuffer := fun i => 10 + i
  pipeline := 3
  pipelineLayout := 4
  descriptorSet := fun i => 20 + i
  cameraRegion := fun _ => { view := 0, proj := 0, camera := 0 }
  xformsRegion := fun _ => { xform := fun _ => 0 }
  lightsRegion := fun _ => { light := fun _ => 0 }

/-! ## Specification-level notions -/

/-- The counter rule as the specification words it: a marked counter ends at
N - 1; an unmarked one is decremented when positive and stays 0 otherwise. -/
def saturating (n : Nat) (marked : Prop) [Decidable marked] (old : Nat) : Nat :=
  if marked then n - 1 else if 0 < old then old - 1 else 0

/-- The frame slot a call record names. -/
def Event.frame : Event → Nat
  | .updateCamera index => index
  | .updateXform frameIndex _ => frameIndex
  | .updateLight frameIndex _ => frameIndex
  | .updateTexture frameIndex _ => frameIndex
  | .updateRenderCommands frameIndex => frameIndex

/-- Example scene that could not be recorded and does not fit the blocks:
twenty primitives, one hundred lights, and materials without an albedo
texture. -/
def exBadScene : Tanto_S_Scene Nat Nat Nat Nat where
  dirt := 0
  camera := 5
  primCount := 20
  lightCount := 100
  textureCount := 0
  xforms := fun p => 10 + p
  lights := fun l => 200 + l
  prims := fun p => { rprim := 30 + p, materialId := p }
  materials := fun m =>
    { textureAlbedo := 4294967295, textureRoughness := 1, shading := 40 + m }
  textures := fun i => { layout := 1, view := 50 + i, sampler := 60 }

/-- What a call does to the serviced slot's command sequence when the
command-sequence counter is non-zero after marking: the new recording is
stored and `updateRenderCommands` is called; the call completes exactly on
the scenes that pass the assertions. -/
def Rerecords (cfg : Config M) (f : Nat) (sc : Tanto_S_Scene M L G K)
    (st : Renderer M L G K maxLights) : Prop :=
  (∀ st', syncScene cfg f sc st = .ok st' →
    st'.renderCommands f = recording sc f st ∧
    Event.updateRenderCommands f ∈ st'.log.drop st.log.length) ∧
  (recordable cfg sc → ∃ st', syncScene cfg f sc st = .ok st') ∧
  (¬ recordable cfg sc → ∃ e, syncScene cfg f sc st = .error e)

/-- What a call does to the serviced slot's texture bindings when the
textures counter is non-zero after marking: one write per texture id below
`textureCount`, at array element `texId`. -/
def WritesTextures (cfg : Config M) (f : Nat) (sc : Tanto_S_Scene M L G K)
    (st : Renderer M L G K maxLights) : Prop :=
  ∀ st', syncScene cfg f sc st = .ok st' → ∀ i, i < sc.textureCount →
    st'.textures f i = some (sc.textures i) ∧
    Event.updateTexture f i ∈ st'.log.drop st.log.length

/-- States the running renderer can be in: the zero-initialised statics, and
whatever `r_InitRenderer`, `r_BindScene`, `onSwapchainRecreate` and completed
`syncScene` calls make of them. -/
inductive Reachable (cfg : Config M) : Renderer M L G K maxLights → Prop where
  | start (st : Renderer M L G K maxLights) (hc : st.cameraNeedUpdate = 0)
      (hf : st.framesNeedUpdate = 0) (hx : st.xformsNeedUpdate = 0)
      (hl : st.lightsNeedUpdate = 0) (ht : st.texturesNeedUpdate = 0) : Reachable cfg st
  | init (ext : Created M L maxLights) (st : Renderer M L G K maxLights) :
      Reachable cfg st → Reachable cfg (r_InitRenderer cfg ext st)
  | bind (pipeline : Nat) (st : Renderer M L G K maxLights) :
      Reachable cfg st → Reachable cfg (r_BindScene pipeline st)
  | recreate (ext : Created M L maxLights) (st : Renderer M L G K maxLights) :
      Reachable cfg st → Reachable cfg (onSwapchainRecreate cfg ext st)
  | sync (f : Nat) (sc : Tanto_S_Scene M L G K) (st st' : Renderer M L G K maxLights) :
      Reachable cfg st → syncScene cfg f sc st = .ok st' → Reachable cfg st'

/-! # Theorems -/

/-! ## The loops of `syncScene` in closed form -/

theorem foldl_updateXform (sc : Tanto_S_Scene M L G K) (f : Nat) (l : List Nat)
    (st : Renderer M L G K maxLights) :
    l.foldl (fun s i => updateXform sc f i s) st =
      { st with
        hostMemory :=
          if ∀ p, p ∈ l → p < MAX_PRIM_COUNT then
            st.hostMemory.map fun m =>
              { m with
                xformsBuffers := Function.update m.xformsBuffers f
                  { xform := fun q =>
                      if q.val ∈ l then sc.xforms q.val else (m.xformsBuffers f).xform q } }
          else none
        log := st.log ++ l.map (Event.updateXform f) } := by
  induction l generalizing st with
  | nil =>
    cases st with
    | mk c fr x li t mem tex rc d rp fb mp pl ds lg =>
      cases mem <;> simp
  | cons a l ih =>
    rw [List.foldl_cons, ih]
    simp only [updateXform, List.map_cons, List.append_assoc, List.singleton_append]
    congr 1
    by_cases ha : a < MAX_PRIM_COUNT
    · by_cases hl : ∀ p, p ∈ l → p < MAX_PRIM_COUNT
      · have hal : ∀ p, p ∈ a :: l → p < MAX_PRIM_COUNT := by
          intro p hp
          rcases List.mem_cons.mp hp with rfl | hp
          · exact ha
          · exact hl p hp
        rw [if_pos hl, if_pos hal, dif_pos ha, Option.map_map]
        congr 1
        funext m
        have key : (fun q : Fin MAX_PRIM_COUNT =>
            if q.val ∈ l then sc.xforms q.val
            else Function.update (m.xformsBuffers f).xform ⟨a, ha⟩ (sc.xforms a) q) =
            (fun q : Fin MAX_PRIM_COUNT =>
              if q.val ∈ a :: l then sc.xforms q.val else (m.xformsBuffers f).xform q) := by
          funext q
          by_cases hq : q = ⟨a, ha⟩
          · subst hq
            simp
          · have hqa : q.val ≠ a := fun h => hq (Fin.ext h)
            simp [hqa, Function.update_noteq hq]
        simp only [Function.comp, Function.update_same, Function.update_idem, key]
      · have hal : ¬ ∀ p, p ∈ a :: l → p < MAX_PRIM_COUNT :=
          fun h => hl (fun p hp => h p (List.mem_cons_of_mem a hp))
        rw [if_neg hl, if_neg hal]
    · have hal : ¬ ∀ p, p ∈ a :: l → p < MAX_PRIM_COUNT :=
        fun h => ha (h a (List.mem_cons_self a l))
      rw [if_neg hal, dif_neg ha]
      simp

theorem foldl_updateLight (sc : Tanto_S_Scene M L G K) (f : Nat) (l : List Nat)
    (st : Renderer M L G K maxLights) :
    l.foldl (fun s i => updateLight sc f i s) st =
      { st with
        hostMemory :=
          if ∀ p, p ∈ l → p < maxLights then
            st.hostMemory.map fun m =>
              { m with
                lightsBuffers := Function.update m.lightsBuffers f
                  { light := fun q =>
                      if q.val ∈ l then sc.lights q.val else (m.lightsBuffers f).light q } }
          else none
        log := st.log ++ l.map (Event.updateLight f) } := by
  induction l generalizing st with
  | nil =>
    cases st with
    | mk c fr x li t mem tex rc d rp fb mp pl ds lg =>
      cases mem <;> simp
  | cons a l ih =>
    rw [List.foldl_cons, ih]
    simp only [updateLight, List.map_cons, List.append_assoc, List.singleton_append]
    congr 1
    by_cases ha : a < maxLights
    · by_cases hl : ∀ p, p ∈ l → p < maxLights
      · have hal : ∀ p, p ∈ a :: l → p < maxLights := by
          intro p hp
          rcases List.mem_cons.mp hp with rfl | hp
          · exact ha
          · exact hl p hp
        rw [if_pos hl, if_pos hal, dif_pos ha, Option.map_map]
        congr 1
        funext m
        have key : (fun q : Fin maxLights =>
            if q.val ∈ l then sc.lights q.val
            else Function.update (m.lightsBuffers f).light ⟨a, ha⟩ (sc.lights a) q) =
            (fun q : Fin maxLights =>
              if q.val ∈ a :: l then sc.lights q.val else (m.lightsBuffers f).light q) := by
          funext q
          by_cases hq : q = ⟨a, ha⟩
          · subst hq
            simp
          · have hqa : q.val ≠ a := fun h => hq (Fin.ext h)
            simp [hqa, Function.update_noteq hq]
        simp only [Function.comp, Function.update_same, Function.update_idem, key]
      · have hal : ¬ ∀ p, p ∈ a :: l → p < maxLights :=
          fun h => hl (fun p hp => h p (List.mem_cons_of_mem a hp))
        rw [if_neg hl, if_neg hal]
    · have hal : ¬ ∀ p, p ∈ a :: l → p < maxLights :=
        fun h => ha (h a (List.mem_cons_self a l))
      rw [if_neg hal, dif_neg ha]
      simp

theorem forall_lt_imp_lt (n k : Nat) : (∀ p, p < n → p < k) ↔ n ≤ k := by
  constructor
  · intro h
    by_contra hn
    have := h k (by omega)
    omega
  · intro h p hp
    omega

theorem foldl_updateTexture (sc : Tanto_S_Scene M L G K) (f : Nat) (l : List Nat)
    (st : Renderer M L G K maxLights) :
    l.foldl (fun s i => updateTexture f (sc.textures i) i s) st =
      { st with
        textures := Function.update st.textures f
          (fun p => if p ∈ l then some (sc.textures p) else st.textures f p)
        log := st.log ++ l.map (Event.updateTexture f) } := by
  induction l generalizing st with
  | nil => simp
  | cons a l ih =>
    rw [List.foldl_cons, ih]
    simp only [updateTexture, List.map_cons, List.append_assoc, List.singleton_append,
      Function.update_same, Function.update_idem, List.mem_cons]
    congr 1
    refine congrArg _ ?_
    funext p
    by_cases hpa : p = a
    · subst hpa
      simp
    · simp [hpa, Function.update_noteq hpa]

/-! ## The blocks of `syncScene` in closed form -/

theorem syncScene_dirt_eq (cfg : Config M) (sc : Tanto_S_Scene M L G K)
    (st : Renderer M L G K maxLights) :
    syncScene_dirt cfg sc st =
      { st with
        cameraNeedUpdate :=
          mark cfg.TANTO_FRAME_COUNT cfg.TANTO_S_CAMERA_BIT sc.dirt st.cameraNeedUpdate
        lightsNeedUpdate :=
          mark cfg.TANTO_FRAME_COUNT cfg.TANTO_S_LIGHTS_BIT sc.dirt st.lightsNeedUpdate
        xformsNeedUpdate :=
          mark cfg.TANTO_FRAME_COUNT cfg.TANTO_S_XFORMS_BIT sc.dirt st.xformsNeedUpdate
        texturesNeedUpdate :=
          mark cfg.TANTO_FRAME_COUNT cfg.TANTO_S_TEXTURES_BIT sc.dirt st.texturesNeedUpdate
        framesNeedUpdate :=
          mark cfg.TANTO_FRAME_COUNT cfg.TANTO_S_TEXTURES_BIT sc.dirt st.framesNeedUpdate } := by
  unfold syncScene_dirt mark
  by_cases h0 : sc.dirt = 0
  · simp [h0]
  · simp only [ne_eq, h0, not_false_eq_true, if_true]
    by_cases h1 : sc.dirt &&& cfg.TANTO_S_CAMERA_BIT = 0 <;>
    by_cases h2 : sc.dirt &&& cfg.TANTO_S_LIGHTS_BIT = 0 <;>
    by_cases h3 : sc.dirt &&& cfg.TANTO_S_XFORMS_BIT = 0 <;>
    by_cases h4 : sc.dirt &&& cfg.TANTO_S_TEXTURES_BIT = 0 <;>
    simp [h1, h2, h3, h4]

theorem syncScene_camera_eq (cfg : Config M) (sc : Tanto_S_Scene M L G K) (f : Nat)
    (st : Renderer M L G K maxLights) :
    syncScene_camera cfg sc f st =
      { st with
        cameraNeedUpdate := dec st.cameraNeedUpdate
        hostMemory := cameraStage cfg sc f st.cameraNeedUpdate st.hostMemory
        log := st.log ++ (if st.cameraNeedUpdate ≠ 0 then [Event.updateCamera f] else []) } := by
  unfold syncScene_camera dec updateCamera cameraStage writeCamera
  by_cases h : st.cameraNeedUpdate = 0
  · cases st
    simp_all
  · simp [h]

theorem syncScene_xforms_eq (sc : Tanto_S_Scene M L G K) (f : Nat)
    (st : Renderer M L G K maxLights) :
    syncScene_xforms sc f st =
      { st with
        xformsNeedUpdate := dec st.xformsNeedUpdate
        hostMemory := xformsStage sc f st.xformsNeedUpdate st.hostMemory
        log := st.log ++ (if st.xformsNeedUpdate ≠ 0 then
          (List.range sc.primCount).map (Event.updateXform f) else []) } := by
  unfold syncScene_xforms dec xformsStage writeXforms
  by_cases h : st.xformsNeedUpdate = 0
  · cases st
    simp_all
  · simp only [ne_eq, h, not_false_eq_true, if_true, foldl_updateXform, forall_lt_imp_lt,
      List.mem_range]

theorem syncScene_lights_eq (sc : Tanto_S_Scene M L G K) (f : Nat)
    (st : Renderer M L G K maxLights) :
    syncScene_lights sc f st =
      { st with
        lightsNeedUpdate := dec st.lightsNeedUpdate
        hostMemory := lightsStage sc f st.lightsNeedUpdate st.hostMemory
        log := st.log ++ (if st.lightsNeedUpdate ≠ 0 then
          (List.range sc.lightCount).map (Event.updateLight f) else []) } := by
  unfold syncScene_lights dec lightsStage writeLights
  by_cases h : st.lightsNeedUpdate = 0
  · cases st
    simp_all
  · simp only [ne_eq, h, not_false_eq_true, if_true, foldl_updateLight, forall_lt_imp_lt,
      List.mem_range]

theorem syncScene_textures_eq (sc : Tanto_S_Scene M L G K) (f : Nat)
    (st : Renderer M L G K maxLights) :
    syncScene_textures sc f st =
      { st with
        texturesNeedUpdate := dec st.texturesNeedUpdate
        textures :=
          if st.texturesNeedUpdate ≠ 0 then
            Function.update st.textures f
              (fun p => if p < sc.textureCount then some (sc.textures p) else st.textures f p)
          else st.textures
        log := st.log ++ (if st.texturesNeedUpdate ≠ 0 then
          (List.range sc.textureCount).map (Event.updateTexture f) else []) } := by
  unfold syncScene_textures dec
  by_cases h : st.texturesNeedUpdate = 0
  · cases st
    simp_all
  · simp [h, foldl_updateTexture]

theorem beforeFrames_eq (cfg : Config M) (f : Nat) (sc : Tanto_S_Scene M L G K)
    (st : Renderer M L G K maxLights) :
    beforeFrames cfg f sc st =
      { st with
        cameraNeedUpdate :=
          dec (mark cfg.TANTO_FRAME_COUNT cfg.TANTO_S_CAMERA_BIT sc.dirt st.cameraNeedUpdate)
        xformsNeedUpdate :=
          dec (mark cfg.TANTO_FRAME_COUNT cfg.TANTO_S_XFORMS_BIT sc.dirt st.xformsNeedUpdate)
        lightsNeedUpdate :=
          dec (mark cfg.TANTO_FRAME_COUNT cfg.TANTO_S_LIGHTS_BIT sc.dirt st.lightsNeedUpdate)
        texturesNeedUpdate :=
          dec (mark cfg.TANTO_FRAME_COUNT cfg.TANTO_S_TEXTURES_BIT sc.dirt st.texturesNeedUpdate)
        framesNeedUpdate :=
          mark cfg.TANTO_FRAME_COUNT cfg.TANTO_S_TEXTURES_BIT sc.dirt st.framesNeedUpdate
        hostMemory :=
          lightsStage sc f
            (mark cfg.TANTO_FRAME_COUNT cfg.TANTO_S_LIGHTS_BIT sc.dirt st.lightsNeedUpdate)
            (xformsStage sc f
              (mark cfg.TANTO_FRAME_COUNT cfg.TANTO_S_XFORMS_BIT sc.dirt st.xformsNeedUpdate)
              (cameraStage cfg sc f
                (mark cfg.TANTO_FRAME_COUNT cfg.TANTO_S_CAMERA_BIT sc.dirt
                  st.cameraNeedUpdate)
                st.hostMemory))
        textures :=
          if mark cfg.TANTO_FRAME_COUNT cfg.TANTO_S_TEXTURES_BIT sc.dirt st.texturesNeedUpdate ≠ 0
          then Function.update st.textures f
            (fun p => if p < sc.textureCount then some (sc.textures p) else st.textures f p)
          else st.textures
        log := st.log ++ beforeFramesEvents cfg f sc st } := by
  simp only [beforeFrames, beforeFramesEvents, syncScene_dirt_eq, syncScene_camera_eq,
    syncScene_xforms_eq, syncScene_lights_eq, syncScene_textures_eq, List.append_assoc]

/-- The recording depends on the renderer only through the pipeline objects
it names. -/
theorem mainRender_congr (cfg : Config M) (sc : Tanto_S_Scene M L G K) (f : Nat)
    (st st2 : Renderer M L G K maxLights) (h1 : st.mainPipeline = st2.mainPipeline)
    (h2 : st.pipelineLayout = st2.pipelineLayout) (h3 : st.renderpass = st2.renderpass)
    (h4 : st.framebuffers f = st2.framebuffers f)
    (h5 : st.descriptorSets f = st2.descriptorSets f) :
    mainRender cfg sc f st = mainRender cfg sc f st2 := by
  unfold mainRender
  rw [h1, h2, h3, h4, h5]

theorem mainRender_beforeFrames (cfg : Config M) (sc : Tanto_S_Scene M L G K) (f : Nat)
    (st : Renderer M L G K maxLights) :
    mainRender cfg sc f (beforeFrames cfg f sc st) = mainRender cfg sc f st := by
  apply mainRender_congr <;> simp [beforeFrames_eq]

/-- One `syncScene` call in closed form: the recording of the command
sequence is attempted exactly when the command-sequence counter is non-zero
after the marking step. -/
theorem syncScene_closed (cfg : Config M) (f : Nat) (sc : Tanto_S_Scene M L G K)
    (st : Renderer M L G K maxLights) :
    syncScene cfg f sc st =
      if mark cfg.TANTO_FRAME_COUNT cfg.TANTO_S_TEXTURES_BIT sc.dirt st.framesNeedUpdate ≠ 0
      then
        match mainRender cfg sc f st with
        | .error e => .error e
        | .ok cmds =>
          .ok { beforeFrames cfg f sc st with
                renderCommands := Function.update st.renderCommands f cmds
                log := st.log ++ beforeFramesEvents cfg f sc st ++
                  [Event.updateRenderCommands f]
                framesNeedUpdate :=
                  dec (mark cfg.TANTO_FRAME_COUNT cfg.TANTO_S_TEXTURES_BIT sc.dirt
                    st.framesNeedUpdate) }
      else .ok (beforeFrames cfg f sc st) := by
  show syncScene_frames cfg sc f (beforeFrames cfg f sc st) = _
  unfold syncScene_frames updateRenderCommands
  rw [mainRender_beforeFrames]
  have hf : (beforeFrames cfg f sc st).framesNeedUpdate =
      mark cfg.TANTO_FRAME_COUNT cfg.TANTO_S_TEXTURES_BIT sc.dirt st.framesNeedUpdate := by
    simp [beforeFrames_eq]
  have hr : (beforeFrames cfg f sc st).renderCommands = st.renderCommands := by
    simp [beforeFrames_eq]
  have hl : (beforeFrames cfg f sc st).log = st.log ++ beforeFramesEvents cfg f sc st := by
    simp [beforeFrames_eq]
  rw [hf, hr, hl]
  by_cases h : mark cfg.TANTO_FRAME_COUNT cfg.TANTO_S_TEXTURES_BIT sc.dirt st.framesNeedUpdate = 0
  · simp [h]
  · simp only [ne_eq, h, not_false_eq_true, if_true]
    cases mainRender cfg sc f st with
    | error e => rfl
    | ok cmds => simp [dec, h]

/-! ## Command sequence recording -/

theorem mainRender_prims_ok (cfg : Config M) (sc : Tanto_S_Scene M L G K) (layout : Nat)
    (ps : List Nat) (acc : List (Cmd G K))
    (h : ∀ p, p ∈ ps →
      (sc.materials (sc.prims p).materialId).textureAlbedo ≠ cfg.TANTO_S_NONE ∧
      (sc.materials (sc.prims p).materialId).textureRoughness ≠ cfg.TANTO_S_NONE) :
    mainRender_prims cfg sc layout ps acc =
      .ok (acc ++ ps.flatMap (primCommands sc layout)) := by
  induction ps generalizing acc with
  | nil => simp [mainRender_prims]
  | cons a ps ih =>
    have ha := h a (List.mem_cons_self a ps)
    have hps : ∀ p, p ∈ ps →
        (sc.materials (sc.prims p).materialId).textureAlbedo ≠ cfg.TANTO_S_NONE ∧
        (sc.materials (sc.prims p).materialId).textureRoughness ≠ cfg.TANTO_S_NONE :=
      fun p hp => h p (List.mem_cons_of_mem a hp)
    simp only [mainRender_prims, ha.1, ha.2, if_false]
    rw [ih _ hps]
    simp [primCommands, List.flatMap_cons]

theorem mainRender_prims_error (cfg : Config M) (sc : Tanto_S_Scene M L G K) (layout : Nat)
    (ps : List Nat) (acc : List (Cmd G K)) (p : Nat) (hp : p ∈ ps)
    (h : (sc.materials (sc.prims p).materialId).textureAlbedo = cfg.TANTO_S_NONE ∨
      (sc.materials (sc.prims p).materialId).textureRoughness = cfg.TANTO_S_NONE) :
    ∃ e, mainRender_prims cfg sc layout ps acc = .error e := by
  induction ps generalizing acc with
  | nil => simp at hp
  | cons a ps ih =>
    simp only [mainRender_prims]
    split
    · exact ⟨_, rfl⟩
    · split
      · exact ⟨_, rfl⟩
      · rcases List.mem_cons.mp hp with rfl | hp2
        · rcases h with h | h <;> contradiction
        · exact ih _ hp2

theorem mainRender_ok (cfg : Config M) (sc : Tanto_S_Scene M L G K) (f : Nat)
    (st : Renderer M L G K maxLights) (h : recordable cfg sc) :
    mainRender cfg sc f st = .ok (recording sc f st) := by
  unfold mainRender recording
  simp only [h.1, if_true]
  rw [mainRender_prims_ok cfg sc st.pipelineLayout (List.range sc.primCount) _
    (fun p hp => h.2 p (List.mem_range.mp hp))]

theorem mainRender_error (cfg : Config M) (sc : Tanto_S_Scene M L G K) (f : Nat)
    (st : Renderer M L G K maxLights) (h : ¬ recordable cfg sc) :
    ∃ e, mainRender cfg sc f st = .error e := by
  unfold mainRender
  by_cases hc : sc.primCount < MAX_PRIM_COUNT
  · simp only [hc, if_true]
    have : ∃ p, p < sc.primCount ∧
        ((sc.materials (sc.prims p).materialId).textureAlbedo = cfg.TANTO_S_NONE ∨
         (sc.materials (sc.prims p).materialId).textureRoughness = cfg.TANTO_S_NONE) := by
      by_contra hne
      apply h
      refine ⟨hc, fun p hp => ?_⟩
      constructor
      · intro ha
        exact hne ⟨p, hp, Or.inl ha⟩
      · intro ha
        exact hne ⟨p, hp, Or.inr ha⟩
    obtain ⟨p, hp, hbad⟩ := this
    obtain ⟨e, he⟩ := mainRender_prims_error cfg sc st.pipelineLayout (List.range sc.primCount)
      [Cmd.bindPipeline st.mainPipeline,
       Cmd.bindDescriptorSets st.pipelineLayout (st.descriptorSets f),
       Cmd.beginRenderPass st.renderpass (st.framebuffers f),
       Cmd.pushLightCount st.pipelineLayout sc.lightCount] p (List.mem_range.mpr hp) hbad
    rw [he]
    exact ⟨e, rfl⟩
  · simp only [hc, if_false]
    exact ⟨_, rfl⟩

theorem countP_isDrawPrim_prims (sc : Tanto_S_Scene M L G K) (layout : Nat) (ps : List Nat) :
    (ps.flatMap (primCommands sc layout)).countP Cmd.isDrawPrim = ps.length := by
  induction ps with
  | nil => simp
  | cons a ps ih =>
    rw [List.flatMap_cons, List.countP_append, ih]
    simp [primCommands, List.countP_cons, Cmd.isDrawPrim]
    omega

theorem countP_isPushLightCount_prims (sc : Tanto_S_Scene M L G K) (layout : Nat)
    (ps : List Nat) :
    (ps.flatMap (primCommands sc layout)).countP Cmd.isPushLightCount = 0 := by
  induction ps with
  | nil => simp
  | cons a ps ih =>
    rw [List.flatMap_cons, List.countP_append, ih]
    simp [primCommands, List.countP_cons, Cmd.isPushLightCount]

/-! ## One `syncScene` call -/

theorem dec_eq (c : Nat) (h : c < 256) : dec c = c - 1 := by
  unfold dec
  split <;> omega

theorem mark_set (n bit dirt old : Nat) (h : dirt &&& bit ≠ 0) :
    mark n bit dirt old = n % 256 := by
  simp [mark, h]

theorem mark_unset (n bit dirt old : Nat) (h : dirt &&& bit = 0) :
    mark n bit dirt old = old := by
  simp [mark, h]

theorem mark_clean (n bit old : Nat) : mark n bit 0 old = old := by
  simp [mark]

theorem dec_mark_le (n bit dirt old : Nat) (hn : n ≤ 255) (ho : old ≤ n) :
    dec (mark n bit dirt old) ≤ n ∧ old - 1 ≤ dec (mark n bit dirt old) := by
  unfold mark
  split
  · rw [dec_eq _ (Nat.mod_lt _ (by decide))]
    omega
  · rw [dec_eq _ (by omega)]
    omega

/-- A completed `syncScene` call either skipped the command-sequence block or
passed the assertions of `mainRender` and stored the new recording. -/
theorem syncScene_ok_cases (cfg : Config M) (f : Nat) (sc : Tanto_S_Scene M L G K)
    (st st' : Renderer M L G K maxLights) (h : syncScene cfg f sc st = .ok st') :
    (mark cfg.TANTO_FRAME_COUNT cfg.TANTO_S_TEXTURES_BIT sc.dirt st.framesNeedUpdate = 0 ∧
      st' = beforeFrames cfg f sc st) ∨
    (mark cfg.TANTO_FRAME_COUNT cfg.TANTO_S_TEXTURES_BIT sc.dirt st.framesNeedUpdate ≠ 0 ∧
      recordable cfg sc ∧
      st' = { beforeFrames cfg f sc st with
              renderCommands := Function.update st.renderCommands f (recording sc f st)
              log := st.log ++ beforeFramesEvents cfg f sc st ++
                [Event.updateRenderCommands f]
              framesNeedUpdate :=
                dec (mark cfg.TANTO_FRAME_COUNT cfg.TANTO_S_TEXTURES_BIT sc.dirt
                  st.framesNeedUpdate) }) := by
  rw [syncScene_closed] at h
  by_cases hm :
      mark cfg.TANTO_FRAME_COUNT cfg.TANTO_S_TEXTURES_BIT sc.dirt st.framesNeedUpdate = 0
  · left
    simp only [ne_eq, hm, not_true_eq_false, if_false] at h
    exact ⟨hm, (Except.ok.inj h).symm⟩
  · right
    simp only [ne_eq, hm, not_false_eq_true, if_true] at h
    by_cases hr : recordable cfg sc
    · rw [mainRender_ok cfg sc f st hr] at h
      exact ⟨hm, hr, (Except.ok.inj h).symm⟩
    · obtain ⟨e, he⟩ := mainRender_error cfg sc f st hr
      rw [he] at h
      cases h

/-- On a scene that passes the assertions of `mainRender`, `syncScene`
completes. -/
theorem syncScene_ok_of_recordable (cfg : Config M) (f : Nat) (sc : Tanto_S_Scene M L G K)
    (st : Renderer M L G K maxLights) (hr : recordable cfg sc) :
    ∃ st', syncScene cfg f sc st = .ok st' := by
  rw [syncScene_closed, mainRender_ok cfg sc f st hr]
  split
  · exact ⟨_, rfl⟩
  · exact ⟨_, rfl⟩

/-- A call whose command-sequence counter is non-zero after marking aborts on
a scene that fails an assertion of `mainRender`. -/
theorem syncScene_error_of_not_recordable (cfg : Config M) (f : Nat)
    (sc : Tanto_S_Scene M L G K) (st : Renderer M L G K maxLights)
    (hm : mark cfg.TANTO_FRAME_COUNT cfg.TANTO_S_TEXTURES_BIT sc.dirt st.framesNeedUpdate ≠ 0)
    (hr : ¬ recordable cfg sc) :
    ∃ e, syncScene cfg f sc st = .error e := by
  rw [syncScene_closed]
  obtain ⟨e, he⟩ := mainRender_error cfg sc f st hr
  simp only [ne_eq, hm, not_false_eq_true, if_true, he]
  exact ⟨e, rfl⟩

/-- The counters after a completed call. -/
theorem syncScene_counters (cfg : Config M) (f : Nat) (sc : Tanto_S_Scene M L G K)
    (st st' : Renderer M L G K maxLights) (h : syncScene cfg f sc st = .ok st') :
    st'.cameraNeedUpdate =
      dec (mark cfg.TANTO_FRAME_COUNT cfg.TANTO_S_CAMERA_BIT sc.dirt st.cameraNeedUpdate) ∧
    st'.xformsNeedUpdate =
      dec (mark cfg.TANTO_FRAME_COUNT cfg.TANTO_S_XFORMS_BIT sc.dirt st.xformsNeedUpdate) ∧
    st'.lightsNeedUpdate =
      dec (mark cfg.TANTO_FRAME_COUNT cfg.TANTO_S_LIGHTS_BIT sc.dirt st.lightsNeedUpdate) ∧
    st'.texturesNeedUpdate =
      dec (mark cfg.TANTO_FRAME_COUNT cfg.TANTO_S_TEXTURES_BIT sc.dirt st.texturesNeedUpdate) ∧
    st'.framesNeedUpdate =
      dec (mark cfg.TANTO_FRAME_COUNT cfg.TANTO_S_TEXTURES_BIT sc.dirt st.framesNeedUpdate) := by
  rcases syncScene_ok_cases cfg f sc st st' h with ⟨hm, rfl⟩ | ⟨_, _, rfl⟩
  · simp [beforeFrames_eq, hm, dec]
  · simp [beforeFrames_eq]

/-- The texture bindings and command sequences after a completed call. -/
theorem syncScene_buffers (cfg : Config M) (f : Nat) (sc : Tanto_S_Scene M L G K)
    (st st' : Renderer M L G K maxLights) (h : syncScene cfg f sc st = .ok st') :
    st'.textures =
      (if mark cfg.TANTO_FRAME_COUNT cfg.TANTO_S_TEXTURES_BIT sc.dirt st.texturesNeedUpdate ≠ 0
       then Function.update st.textures f
         (fun p => if p < sc.textureCount then some (sc.textures p) else st.textures f p)
       else st.textures) ∧
    st'.renderCommands =
      (if mark cfg.TANTO_FRAME_COUNT cfg.TANTO_S_TEXTURES_BIT sc.dirt st.framesNeedUpdate ≠ 0
       then Function.update st.renderCommands f (recording sc f st)
       else st.renderCommands) := by
  rcases syncScene_ok_cases cfg f sc st st' h with ⟨hm, rfl⟩ | ⟨hm, _, rfl⟩
  · simp [beforeFrames_eq, hm]
  · simp [beforeFrames_eq, hm]

/-- The host memory after a completed call. -/
theorem syncScene_hostMemory (cfg : Config M) (f : Nat) (sc : Tanto_S_Scene M L G K)
    (st st' : Renderer M L G K maxLights) (h : syncScene cfg f sc st = .ok st') :
    st'.hostMemory =
      lightsStage sc f
        (mark cfg.TANTO_FRAME_COUNT cfg.TANTO_S_LIGHTS_BIT sc.dirt st.lightsNeedUpdate)
        (xformsStage sc f
          (mark cfg.TANTO_FRAME_COUNT cfg.TANTO_S_XFORMS_BIT sc.dirt st.xformsNeedUpdate)
          (cameraStage cfg sc f
            (mark cfg.TANTO_FRAME_COUNT cfg.TANTO_S_CAMERA_BIT sc.dirt st.cameraNeedUpdate)
            st.hostMemory)) := by
  rcases syncScene_ok_cases cfg f sc st st' h with ⟨_, rfl⟩ | ⟨_, _, rfl⟩
  · simp [beforeFrames_eq]
  · simp [beforeFrames_eq]

/-- With at most `MAX_PRIM_COUNT` primitives and at most `TANTO_S_MAX_LIGHTS`
lights every write of a completed call stays inside its block. -/
theorem syncScene_hostMemory_in_bounds (cfg : Config M) (f : Nat)
    (sc : Tanto_S_Scene M L G K) (st st' : Renderer M L G K maxLights)
    (m : HostMemory M L maxLights) (hp : sc.primCount ≤ MAX_PRIM_COUNT)
    (hl : sc.lightCount ≤ maxLights) (hm : st.hostMemory = some m)
    (h : syncScene cfg f sc st = .ok st') :
    st'.hostMemory = some (written cfg f sc st m) := by
  rw [syncScene_hostMemory cfg f sc st st' h, hm]
  unfold lightsStage xformsStage cameraStage written
  simp only [hp, hl, if_true]
  split_ifs <;> rfl

/-- A completed call whose xforms loop runs over more than `MAX_PRIM_COUNT`
primitives, or whose lights loop runs over more than `TANTO_S_MAX_LIGHTS`
lights, has written past a block. -/
theorem syncScene_hostMemory_overflow (cfg : Config M) (f : Nat)
    (sc : Tanto_S_Scene M L G K) (st st' : Renderer M L G K maxLights)
    (h : syncScene cfg f sc st = .ok st')
    (hover :
      (mark cfg.TANTO_FRAME_COUNT cfg.TANTO_S_XFORMS_BIT sc.dirt st.xformsNeedUpdate ≠ 0 ∧
        MAX_PRIM_COUNT < sc.primCount) ∨
      (mark cfg.TANTO_FRAME_COUNT cfg.TANTO_S_LIGHTS_BIT sc.dirt st.lightsNeedUpdate ≠ 0 ∧
        maxLights < sc.lightCount)) :
    st'.hostMemory = none := by
  rw [syncScene_hostMemory cfg f sc st st' h]
  unfold lightsStage xformsStage
  rcases hover with ⟨hc, hn⟩ | ⟨hc, hn⟩
  · have hn2 : ¬ sc.primCount ≤ MAX_PRIM_COUNT := by omega
    simp only [ne_eq, hc, not_false_eq_true, if_true, hn2, if_false]
    split_ifs <;> rfl
  · have hn2 : ¬ sc.lightCount ≤ maxLights := by omega
    simp only [ne_eq, hc, not_false_eq_true, if_true, hn2, if_false]

/-- If the host memory is described after a completed call, it was described
before it, every write of the call stayed inside its block, and the xforms
and lights loops that ran were within the array bounds. -/
theorem syncScene_hostMemory_some (cfg : Config M) (f : Nat)
    (sc : Tanto_S_Scene M L G K) (st st' : Renderer M L G K maxLights)
    (m' : HostMemory M L maxLights) (h : syncScene cfg f sc st = .ok st')
    (hm' : st'.hostMemory = some m') :
    ∃ m, st.hostMemory = some m ∧ m' = written cfg f sc st m ∧
      (mark cfg.TANTO_FRAME_COUNT cfg.TANTO_S_XFORMS_BIT sc.dirt st.xformsNeedUpdate ≠ 0 →
        sc.primCount ≤ MAX_PRIM_COUNT) ∧
      (mark cfg.TANTO_FRAME_COUNT cfg.TANTO_S_LIGHTS_BIT sc.dirt st.lightsNeedUpdate ≠ 0 →
        sc.lightCount ≤ maxLights) := by
  rw [syncScene_hostMemory cfg f sc st st' h] at hm'
  unfold lightsStage xformsStage cameraStage at hm'
  unfold written
  cases hmem : st.hostMemory with
  | none =>
    rw [hmem] at hm'
    split_ifs at hm' <;> simp at hm'
  | some m =>
    rw [hmem] at hm'
    refine ⟨m, rfl, ?_⟩
    split_ifs at hm' <;> simp_all

theorem written_cameraBuffers (cfg : Config M) (f : Nat) (sc : Tanto_S_Scene M L G K)
    (st : Renderer M L G K maxLights) (m : HostMemory M L maxLights) (g : Nat) :
    (written cfg f sc st m).cameraBuffers g =
      if mark cfg.TANTO_FRAME_COUNT cfg.TANTO_S_CAMERA_BIT sc.dirt st.cameraNeedUpdate ≠ 0 ∧
          g = f
      then { view := cfg.m_Invert4x4 sc.camera, proj := cfg.m_BuildPerspective,
             camera := sc.camera }
      else m.cameraBuffers g := by
  unfold written writeCamera writeXforms writeLights
  by_cases hg : g = f
  · subst hg
    split_ifs <;> simp_all
  · split_ifs <;> simp_all [Function.update_noteq hg]

theorem written_xform (cfg : Config M) (f : Nat) (sc : Tanto_S_Scene M L G K)
    (st : Renderer M L G K maxLights) (m : HostMemory M L maxLights) (g : Nat)
    (q : Fin MAX_PRIM_COUNT) :
    ((written cfg f sc st m).xformsBuffers g).xform q =
      if mark cfg.TANTO_FRAME_COUNT cfg.TANTO_S_XFORMS_BIT sc.dirt st.xformsNeedUpdate ≠ 0 ∧
          g = f ∧ q.val < sc.primCount
      then sc.xforms q.val
      else (m.xformsBuffers g).xform q := by
  unfold written writeCamera writeXforms writeLights
  by_cases hg : g = f
  · subst hg
    split_ifs <;> simp_all
  · split_ifs <;> simp_all [Function.update_noteq hg]

theorem written_light (cfg : Config M) (f : Nat) (sc : Tanto_S_Scene M L G K)
    (st : Renderer M L G K maxLights) (m : HostMemory M L maxLights) (g : Nat)
    (q : Fin maxLights) :
    ((written cfg f sc st m).lightsBuffers g).light q =
      if mark cfg.TANTO_FRAME_COUNT cfg.TANTO_S_LIGHTS_BIT sc.dirt st.lightsNeedUpdate ≠ 0 ∧
          g = f ∧ q.val < sc.lightCount
      then sc.lights q.val
      else (m.lightsBuffers g).light q := by
  unfold written writeCamera writeXforms writeLights
  by_cases hg : g = f
  · subst hg
    split_ifs <;> simp_all
  · split_ifs <;> simp_all [Function.update_noteq hg]

/-- The call records appended by a completed call. -/
theorem syncScene_log (cfg : Config M) (f : Nat) (sc : Tanto_S_Scene M L G K)
    (st st' : Renderer M L G K maxLights) (h : syncScene cfg f sc st = .ok st') :
    st'.log = st.log ++ (beforeFramesEvents cfg f sc st ++
      (if mark cfg.TANTO_FRAME_COUNT cfg.TANTO_S_TEXTURES_BIT sc.dirt st.framesNeedUpdate ≠ 0
       then [Event.updateRenderCommands f] else [])) := by
  rcases syncScene_ok_cases cfg f sc st st' h with ⟨hm, rfl⟩ | ⟨hm, _, rfl⟩
  · simp [beforeFrames_eq, hm]
  · simp [beforeFrames_eq, hm]

/-- A completed call leaves the pipeline objects alone. -/
theorem syncScene_objects (cfg : Config M) (f : Nat) (sc : Tanto_S_Scene M L G K)
    (st st' : Renderer M L G K maxLights) (h : syncScene cfg f sc st = .ok st') :
    st'.mainPipeline = st.mainPipeline ∧ st'.pipelineLayout = st.pipelineLayout ∧
    st'.renderpass = st.renderpass ∧ st'.framebuffers = st.framebuffers ∧
    st'.descriptorSets = st.descriptorSets ∧ st'.renderTargetDepth = st.renderTargetDepth := by
  rcases syncScene_ok_cases cfg f sc st st' h with ⟨_, rfl⟩ | ⟨_, _, rfl⟩
  · simp [beforeFrames_eq]
  · simp [beforeFrames_eq]

theorem exScene_recordable (dirt : Nat) : recordable exConfig (exScene dirt) := by
  refine ⟨?_, fun p _ => ⟨?_, ?_⟩⟩ <;> simp [exScene, exConfig, MAX_PRIM_COUNT]

/-! ## The counter rule (C3) -/

theorem dec_mark_saturating (n bit dirt old : Nat) (hn : n ≤ 255) (ho : old ≤ n) :
    dec (mark n bit dirt old) = saturating n (dirt &&& bit ≠ 0) old := by
  unfold mark saturating
  split
  · rw [dec_eq _ (Nat.mod_lt _ (by decide))]
    omega
  · rw [dec_eq _ (by omega)]
    split <;> omega

theorem saturating_le (n : Nat) (marked : Prop) [Decidable marked] (old : Nat)
    (ho : old ≤ n) : saturating n marked old ≤ n := by
  unfold saturating
  split
  · omega
  · split <;> omega

/-- C3: with 1 ≤ N ≤ 255 and every counter in [0, N], one completed
`syncScene` call leaves each of the five counters at the saturating rule's
value (N - 1 if its dirt bit is set, the textures bit for the command-sequence
counter; otherwise old - 1 if positive and 0 if zero), the marking step stores
exactly N, every counter stays in [0, N], and the call completes on every
scene that passes the assertions of `mainRender`. -/
theorem syncScene_saturating_counters (cfg : Config M) (f : Nat)
    (sc : Tanto_S_Scene M L G K) (st : Renderer M L G K maxLights)
    (hN1 : 1 ≤ cfg.TANTO_FRAME_COUNT) (hN : cfg.TANTO_FRAME_COUNT ≤ 255)
    (hc : st.cameraNeedUpdate ≤ cfg.TANTO_FRAME_COUNT)
    (hx : st.xformsNeedUpdate ≤ cfg.TANTO_FRAME_COUNT)
    (hl : st.lightsNeedUpdate ≤ cfg.TANTO_FRAME_COUNT)
    (ht : st.texturesNeedUpdate ≤ cfg.TANTO_FRAME_COUNT)
    (hf : st.framesNeedUpdate ≤ cfg.TANTO_FRAME_COUNT) :
    (∀ st', syncScene cfg f sc st = .ok st' →
      (st'.cameraNeedUpdate = saturating cfg.TANTO_FRAME_COUNT
          (sc.dirt &&& cfg.TANTO_S_CAMERA_BIT ≠ 0) st.cameraNeedUpdate ∧
       st'.xformsNeedUpdate = saturating cfg.TANTO_FRAME_COUNT
          (sc.dirt &&& cfg.TANTO_S_XFORMS_BIT ≠ 0) st.xformsNeedUpdate ∧
       st'.lightsNeedUpdate = saturating cfg.TANTO_FRAME_COUNT
          (sc.dirt &&& cfg.TANTO_S_LIGHTS_BIT ≠ 0) st.lightsNeedUpdate ∧
       st'.texturesNeedUpdate = saturating cfg.TANTO_FRAME_COUNT
          (sc.dirt &&& cfg.TANTO_S_TEXTURES_BIT ≠ 0) st.texturesNeedUpdate ∧
       st'.framesNeedUpdate = saturating cfg.TANTO_FRAME_COUNT
          (sc.dirt &&& cfg.TANTO_S_TEXTURES_BIT ≠ 0) st.framesNeedUpdate) ∧
      (st'.cameraNeedUpdate ≤ cfg.TANTO_FRAME_COUNT ∧
       st'.xformsNeedUpdate ≤ cfg.TANTO_FRAME_COUNT ∧
       st'.lightsNeedUpdate ≤ cfg.TANTO_FRAME_COUNT ∧
       st'.texturesNeedUpdate ≤ cfg.TANTO_FRAME_COUNT ∧
       st'.framesNeedUpdate ≤ cfg.TANTO_FRAME_COUNT)) ∧
    ((sc.dirt &&& cfg.TANTO_S_CAMERA_BIT ≠ 0 →
        (syncScene_dirt cfg sc st).cameraNeedUpdate = cfg.TANTO_FRAME_COUNT) ∧
     (sc.dirt &&& cfg.TANTO_S_XFORMS_BIT ≠ 0 →
        (syncScene_dirt cfg sc st).xformsNeedUpdate = cfg.TANTO_FRAME_COUNT) ∧
     (sc.dirt &&& cfg.TANTO_S_LIGHTS_BIT ≠ 0 →
        (syncScene_dirt cfg sc st).lightsNeedUpdate = cfg.TANTO_FRAME_COUNT) ∧
     (sc.dirt &&& cfg.TANTO_S_TEXTURES_BIT ≠ 0 →
        (syncScene_dirt cfg sc st).texturesNeedUpdate = cfg.TANTO_FRAME_COUNT ∧
        (syncScene_dirt cfg sc st).framesNeedUpdate = cfg.TANTO_FRAME_COUNT)) ∧
    (recordable cfg sc → ∃ st', syncScene cfg f sc st = .ok st') := by
  have hmod : cfg.TANTO_FRAME_COUNT % 256 = cfg.TANTO_FRAME_COUNT :=
    Nat.mod_eq_of_lt (by omega)
  refine ⟨fun st' h => ?_, ?_, syncScene_ok_of_recordable cfg f sc st⟩
  · obtain ⟨h1, h2, h3, h4, h5⟩ := syncScene_counters cfg f sc st st' h
    rw [dec_mark_saturating _ _ _ _ hN hc] at h1
    rw [dec_mark_saturating _ _ _ _ hN hx] at h2
    rw [dec_mark_saturating _ _ _ _ hN hl] at h3
    rw [dec_mark_saturating _ _ _ _ hN ht] at h4
    rw [dec_mark_saturating _ _ _ _ hN hf] at h5
    refine ⟨⟨h1, h2, h3, h4, h5⟩, ?_, ?_, ?_, ?_, ?_⟩
    · rw [h1]; exact saturating_le _ _ _ hc
    · rw [h2]; exact saturating_le _ _ _ hx
    · rw [h3]; exact saturating_le _ _ _ hl
    · rw [h4]; exact saturating_le _ _ _ ht
    · rw [h5]; exact saturating_le _ _ _ hf
  · rw [syncScene_dirt_eq]
    refine ⟨fun hb => ?_, fun hb => ?_, fun hb => ?_, fun hb => ⟨?_, ?_⟩⟩ <;>
      simp [mark, hb, hmod]

/-- Witness for C3: two slots, camera and textures bits set, counters
(camera 1, frames 0, xforms 2, lights 0, textures 1). -/
theorem syncScene_saturating_counters_witness :
    (1 ≤ exConfig.TANTO_FRAME_COUNT ∧ exConfig.TANTO_FRAME_COUNT ≤ 255) ∧
    (∃ st', syncScene exConfig 0 (exScene 9) (exState 1 0 2 0 1) = .ok st' ∧
      st'.cameraNeedUpdate = 1 ∧ st'.xformsNeedUpdate = 1 ∧ st'.lightsNeedUpdate = 0 ∧
      st'.texturesNeedUpdate = 1 ∧ st'.framesNeedUpdate = 1) := by
  have h := syncScene_saturating_counters exConfig 0 (exScene 9) (exState 1 0 2 0 1)
    (by decide) (by decide) (by decide) (by decide) (by decide) (by decide) (by decide)
  obtain ⟨st', hst'⟩ := h.2.2 (exScene_recordable 9)
  obtain ⟨⟨h1, h2, h3, h4, h5⟩, _⟩ := h.1 st' hst'
  refine ⟨⟨by decide, by decide⟩, st', hst', ?_, ?_, ?_, ?_, ?_⟩
  · rw [h1]; decide
  · rw [h2]; decide
  · rw [h3]; decide
  · rw [h4]; decide
  · rw [h5]; decide

/-! ## Initialisation (C4) -/

/-- C4: `r_InitRenderer` followed by `r_BindScene` stores N into the camera,
xforms, textures and command-sequence counters but leaves `lightsNeedUpdate`
at its previous value, which is 0 at program start: the renderer is not fully
dirty. -/
theorem r_InitRenderer_leaves_lightsNeedUpdate (cfg : Config M) (ext : Created M L maxLights)
    (pipeline : Nat) (st : Renderer M L G K maxLights) [Inhabited M] [Inhabited L] :
    ((r_BindScene pipeline (r_InitRenderer cfg ext st)).cameraNeedUpdate =
        cfg.TANTO_FRAME_COUNT % 256 ∧
     (r_BindScene pipeline (r_InitRenderer cfg ext st)).xformsNeedUpdate =
        cfg.TANTO_FRAME_COUNT % 256 ∧
     (r_BindScene pipeline (r_InitRenderer cfg ext st)).texturesNeedUpdate =
        cfg.TANTO_FRAME_COUNT % 256 ∧
     (r_BindScene pipeline (r_InitRenderer cfg ext st)).framesNeedUpdate =
        cfg.TANTO_FRAME_COUNT % 256 ∧
     (r_BindScene pipeline (r_InitRenderer cfg ext st)).lightsNeedUpdate =
        st.lightsNeedUpdate) ∧
    (r_BindScene pipeline (r_InitRenderer cfg ext
      (Renderer.zero : Renderer M L G K maxLights))).lightsNeedUpdate = 0 ∧
    (r_BindScene 3 (r_InitRenderer exConfig exCreated
      (Renderer.zero : Renderer Nat Nat Nat Nat 8))).lightsNeedUpdate ≠
        exConfig.TANTO_FRAME_COUNT := by
  refine ⟨⟨rfl, rfl, rfl, rfl, rfl⟩, rfl, ?_⟩
  decide

/-! ## The dirt bitmask (C2) -/

/-- C2, as stated, fails: the scene is not written, so a second call on the
same scene (dirt still 1, the camera bit) marks the camera counter again; with
two slots the counter is 1 after the first call and 1, not 0, after the
second. -/
theorem syncScene_marks_again :
    ∃ st1 st2, syncScene exConfig 0 (exScene 1) (exState 0 0 0 0 0) = .ok st1 ∧
      syncScene exConfig 1 (exScene 1) st1 = .ok st2 ∧
      st1.cameraNeedUpdate = 1 ∧ st2.cameraNeedUpdate = 1 := by
  obtain ⟨st1, h1⟩ := syncScene_ok_of_recordable exConfig 0 (exScene 1) (exState 0 0 0 0 0)
    (exScene_recordable 1)
  obtain ⟨st2, h2⟩ := syncScene_ok_of_recordable exConfig 1 (exScene 1) st1
    (exScene_recordable 1)
  have c1 := (syncScene_counters _ _ _ _ _ h1).1
  have c2 := (syncScene_counters _ _ _ _ _ h2).1
  have e1 : st1.cameraNeedUpdate = 1 := by rw [c1]; decide
  refine ⟨st1, st2, h1, h2, e1, ?_⟩
  rw [c2, e1]
  decide

/-- C2, amended: `syncScene` returns no scene (it cannot write through the
pointer to const), and a call on a scene whose dirt bitmask is zero marks
nothing: each `uint8_t` counter ends at old - 1 if positive and stays 0
otherwise; the call completes on every scene that passes the assertions. -/
theorem syncScene_clean_scene (cfg : Config M) (f : Nat) (sc : Tanto_S_Scene M L G K)
    (st : Renderer M L G K maxLights) (hd : sc.dirt = 0)
    (hc : st.cameraNeedUpdate < 256) (hx : st.xformsNeedUpdate < 256)
    (hl : st.lightsNeedUpdate < 256) (ht : st.texturesNeedUpdate < 256)
    (hf : st.framesNeedUpdate < 256) :
    (∀ st', syncScene cfg f sc st = .ok st' →
      (syncScene_dirt cfg sc st = st) ∧
      st'.cameraNeedUpdate = st.cameraNeedUpdate - 1 ∧
      st'.xformsNeedUpdate = st.xformsNeedUpdate - 1 ∧
      st'.lightsNeedUpdate = st.lightsNeedUpdate - 1 ∧
      st'.texturesNeedUpdate = st.texturesNeedUpdate - 1 ∧
      st'.framesNeedUpdate = st.framesNeedUpdate - 1) ∧
    (recordable cfg sc → ∃ st', syncScene cfg f sc st = .ok st') := by
  refine ⟨fun st' h => ?_, syncScene_ok_of_recordable cfg f sc st⟩
  obtain ⟨h1, h2, h3, h4, h5⟩ := syncScene_counters cfg f sc st st' h
  rw [hd, mark_clean] at h1 h2 h3 h4 h5
  rw [dec_eq _ hc] at h1
  rw [dec_eq _ hx] at h2
  rw [dec_eq _ hl] at h3
  rw [dec_eq _ ht] at h4
  rw [dec_eq _ hf] at h5
  refine ⟨?_, h1, h2, h3, h4, h5⟩
  simp [syncScene_dirt, hd]

/-- Witness for the amended C2: a clean scene, counters (camera 1, frames 2,
xforms 0, lights 1, textures 2). -/
theorem syncScene_clean_scene_witness :
    (exScene 0).dirt = 0 ∧
    (∃ st', syncScene exConfig 0 (exScene 0) (exState 1 2 0 1 2) = .ok st' ∧
      st'.cameraNeedUpdate = 0 ∧ st'.xformsNeedUpdate = 0 ∧ st'.lightsNeedUpdate = 0 ∧
      st'.texturesNeedUpdate = 1 ∧ st'.framesNeedUpdate = 1) := by
  have h := syncScene_clean_scene exConfig 0 (exScene 0) (exState 1 2 0 1 2) rfl
    (by decide) (by decide) (by decide) (by decide) (by decide)
  obtain ⟨st', hst'⟩ := h.2 (exScene_recordable 0)
  obtain ⟨_, h1, h2, h3, h4, h5⟩ := h.1 st' hst'
  exact ⟨rfl, st', hst', h1, h2, h3, h4, h5⟩

/-! ## Slot isolation (C7) -/

theorem beforeFramesEvents_frame (cfg : Config M) (f : Nat) (sc : Tanto_S_Scene M L G K)
    (st : Renderer M L G K maxLights) (e : Event) (he : e ∈ beforeFramesEvents cfg f sc st) :
    e.frame = f ∧ ∀ g, e ≠ Event.updateRenderCommands g := by
  unfold beforeFramesEvents at he
  simp only [List.mem_append] at he
  rcases he with he | he | he | he
  · split at he
    · simp only [List.mem_singleton] at he
      subst he
      exact ⟨rfl, fun g hg => by cases hg⟩
    · simp at he
  · split at he
    · obtain ⟨p, _, rfl⟩ := List.mem_map.mp he
      exact ⟨rfl, fun g hg => by cases hg⟩
    · simp at he
  · split at he
    · obtain ⟨p, _, rfl⟩ := List.mem_map.mp he
      exact ⟨rfl, fun g hg => by cases hg⟩
    · simp at he
  · split at he
    · obtain ⟨p, _, rfl⟩ := List.mem_map.mp he
      exact ⟨rfl, fun g hg => by cases hg⟩
    · simp at he

/-- The call records of one completed call are the suffix of the log. -/
theorem syncScene_log_drop (cfg : Config M) (f : Nat) (sc : Tanto_S_Scene M L G K)
    (st st' : Renderer M L G K maxLights) (h : syncScene cfg f sc st = .ok st') :
    st'.log.drop st.log.length = beforeFramesEvents cfg f sc st ++
      (if mark cfg.TANTO_FRAME_COUNT cfg.TANTO_S_TEXTURES_BIT sc.dirt st.framesNeedUpdate ≠ 0
       then [Event.updateRenderCommands f] else []) := by
  rw [syncScene_log cfg f sc st st' h, List.drop_left]

/-- A call whose command-sequence counter is zero after marking completes on
every scene: no assertion is reached. -/
theorem syncScene_ok_of_clean (cfg : Config M) (f : Nat) (sc : Tanto_S_Scene M L G K)
    (st : Renderer M L G K maxLights)
    (hm : mark cfg.TANTO_FRAME_COUNT cfg.TANTO_S_TEXTURES_BIT sc.dirt st.framesNeedUpdate = 0) :
    syncScene cfg f sc st = .ok (beforeFrames cfg f sc st) := by
  rw [syncScene_closed]
  simp only [ne_eq, hm, not_true_eq_false, if_false]

/-- Slot isolation within the array bounds: with at most `MAX_PRIM_COUNT`
primitives and at most `TANTO_S_MAX_LIGHTS` lights, a completed
`syncScene(f)` call leaves the blocks, texture bindings and command sequence
of every other slot unchanged, and every `update*` call it makes names slot
`f`. -/
theorem syncScene_slot_isolation_in_bounds (cfg : Config M) (f g : Nat)
    (sc : Tanto_S_Scene M L G K) (st : Renderer M L G K maxLights)
    (m : HostMemory M L maxLights) (hg : g ≠ f)
    (hp : sc.primCount ≤ MAX_PRIM_COUNT) (hl : sc.lightCount ≤ maxLights)
    (hm : st.hostMemory = some m) :
    (∀ st', syncScene cfg f sc st = .ok st' →
      (∃ m', st'.hostMemory = some m' ∧
        m'.cameraBuffers g = m.cameraBuffers g ∧
        (∀ q, (m'.xformsBuffers g).xform q = (m.xformsBuffers g).xform q) ∧
        (∀ q, (m'.lightsBuffers g).light q = (m.lightsBuffers g).light q)) ∧
      st'.textures g = st.textures g ∧
      st'.renderCommands g = st.renderCommands g ∧
      ∀ e, e ∈ st'.log.drop st.log.length → e.frame = f) ∧
    (recordable cfg sc → ∃ st', syncScene cfg f sc st = .ok st') := by
  refine ⟨fun st' h => ?_, syncScene_ok_of_recordable cfg f sc st⟩
  obtain ⟨b4, b5⟩ := syncScene_buffers cfg f sc st st' h
  refine ⟨⟨_, syncScene_hostMemory_in_bounds cfg f sc st st' m hp hl hm h, ?_, ?_, ?_⟩,
    ?_, ?_, ?_⟩
  · rw [written_cameraBuffers]
    simp [hg]
  · intro q
    rw [written_xform]
    simp [hg]
  · intro q
    rw [written_light]
    simp [hg]
  · rw [b4]; split
    · exact Function.update_noteq hg _ _
    · rfl
  · rw [b5]; split
    · exact Function.update_noteq hg _ _
    · rfl
  · intro e he
    rw [syncScene_log_drop cfg f sc st st' h, List.mem_append] at he
    rcases he with he | he
    · exact (beforeFramesEvents_frame cfg f sc st e he).1
    · split at he
      · simp only [List.mem_singleton] at he
        subst he
        rfl
      · simp at he

/-- In a call that re-records (the textures bit is set or the
command-sequence counter is non-zero), a scene with primCount not below
MAX_PRIM_COUNT or with an active primitive whose material lacks an albedo or
a roughness texture makes `syncScene` end in an assertion failure of
`mainRender`. -/
theorem syncScene_violation_fatal_when_recording (cfg : Config M) (f : Nat)
    (sc : Tanto_S_Scene M L G K) (st : Renderer M L G K maxLights)
    (hN1 : 1 ≤ cfg.TANTO_FRAME_COUNT) (hN : cfg.TANTO_FRAME_COUNT ≤ 255)
    (hre : sc.dirt &&& cfg.TANTO_S_TEXTURES_BIT ≠ 0 ∨ st.framesNeedUpdate ≠ 0)
    (hbad : MAX_PRIM_COUNT ≤ sc.primCount ∨
      ∃ p, p < sc.primCount ∧
        ((sc.materials (sc.prims p).materialId).textureAlbedo = cfg.TANTO_S_NONE ∨
         (sc.materials (sc.prims p).materialId).textureRoughness = cfg.TANTO_S_NONE)) :
    ∃ e, syncScene cfg f sc st = .error e := by
  apply syncScene_error_of_not_recordable
  · unfold mark
    split
    · rw [Nat.mod_eq_of_lt (by omega)]
      omega
    · rename_i hb
      rcases hre with h | h
      · exact absurd h hb
      · exact h
  · rintro ⟨hc, hall⟩
    rcases hbad with h | ⟨p, hp, h | h⟩
    · omega
    · exact (hall p hp).1 h
    · exact (hall p hp).2 h

/-- C9: the code does not always detect a violation. On a scene with twenty
primitives (not below MAX_PRIM_COUNT) a call with the xforms counter at 1 and
the command-sequence counter at 0 reaches no assertion, completes normally
and calls `updateXform(0, 16)` up to `updateXform(0, 19)`, writing past the
sixteen cells of the `Xforms` block; the same scene with the
command-sequence counter at 1 fails `assert(scene->primCount <
MAX_PRIM_COUNT)`. On a scene with one hundred lights, more than the eight
cells of the `Lights` block, even a call that re-records completes and calls
`updateLight(0, 99)`. -/
theorem syncScene_unchecked_violation :
    (MAX_PRIM_COUNT ≤ (exCrowdedScene 0 20 1).primCount ∧
      (exState 0 0 1 0 0).hostMemory ≠ none ∧
      ∃ st', syncScene exConfig 0 (exCrowdedScene 0 20 1) (exState 0 0 1 0 0) = .ok st' ∧
        Event.updateXform 0 16 ∈ st'.log ∧ Event.updateXform 0 19 ∈ st'.log ∧
        st'.hostMemory = none) ∧
    (∃ e, syncScene exConfig 0 (exCrowdedScene 0 20 1) (exState 0 1 1 0 0) = .error e) ∧
    (8 < (exCrowdedScene 0 2 100).lightCount ∧
      ∃ st', syncScene exConfig 0 (exCrowdedScene 0 2 100) (exState 0 1 0 1 0) = .ok st' ∧
        Event.updateLight 0 99 ∈ st'.log ∧ Event.updateRenderCommands 0 ∈ st'.log ∧
        st'.hostMemory = none) := by
  refine ⟨⟨by decide, by simp [exState, Renderer.zero], ?_⟩, ?_, by decide, ?_⟩
  · have hm : mark exConfig.TANTO_FRAME_COUNT exConfig.TANTO_S_TEXTURES_BIT
        (exCrowdedScene 0 20 1).dirt (exState 0 0 1 0 0).framesNeedUpdate = 0 := by decide
    have h := syncScene_ok_of_clean exConfig 0 (exCrowdedScene 0 20 1) (exState 0 0 1 0 0) hm
    refine ⟨_, h, ?_, ?_, ?_⟩
    · rw [syncScene_log _ _ _ _ _ h]
      simp [beforeFramesEvents, mark, exCrowdedScene, exState, exConfig, Renderer.zero]
    · rw [syncScene_log _ _ _ _ _ h]
      simp [beforeFramesEvents, mark, exCrowdedScene, exState, exConfig, Renderer.zero]
    · exact syncScene_hostMemory_overflow _ _ _ _ _ h (Or.inl ⟨by decide, by decide⟩)
  · exact syncScene_error_of_not_recordable exConfig 0 (exCrowdedScene 0 20 1)
      (exState 0 1 1 0 0) (by decide)
      (fun hr => absurd hr.1 (by decide))
  · have hr : recordable exConfig (exCrowdedScene 0 2 100) := by
      refine ⟨?_, fun p _ => ⟨?_, ?_⟩⟩ <;> simp [exCrowdedScene, exConfig, MAX_PRIM_COUNT]
    obtain ⟨st', h⟩ := syncScene_ok_of_recordable exConfig 0 (exCrowdedScene 0 2 100)
      (exState 0 1 0 1 0) hr
    refine ⟨st', h, ?_, ?_, ?_⟩
    · rw [syncScene_log _ _ _ _ _ h]
      simp [beforeFramesEvents, mark, exCrowdedScene, exState, exConfig, Renderer.zero]
    · rw [syncScene_log _ _ _ _ _ h]
      simp [beforeFramesEvents, mark, exCrowdedScene, exState, exConfig, Renderer.zero]
    · exact syncScene_hostMemory_overflow _ _ _ _ _ h (Or.inr ⟨by decide, by decide⟩)

/-! ## Command sequence recording (C10) -/

/-- C10: on a scene with primCount below MAX_PRIM_COUNT whose active
primitives all have albedo and roughness textures, `mainRender` passes its
assertions and records exactly the specified sequence (one push of the light
count, primCount draws, primitives in increasing order), `updateRenderCommands`
stores it in the slot, and the recording is the same from every renderer state
that holds the same pipeline objects. -/
theorem mainRender_records_sequence (cfg : Config M) (sc : Tanto_S_Scene M L G K)
    (f : Nat) (st : Renderer M L G K maxLights) (h : recordable cfg sc) :
    mainRender cfg sc f st = .ok (recording sc f st) ∧
    (recording sc f st).countP Cmd.isPushLightCount = 1 ∧
    (recording sc f st).countP Cmd.isDrawPrim = sc.primCount ∧
    (∃ st', updateRenderCommands cfg sc f st = .ok st' ∧
      st'.renderCommands f = recording sc f st) ∧
    (∀ st2 : Renderer M L G K maxLights, st2.mainPipeline = st.mainPipeline →
      st2.pipelineLayout = st.pipelineLayout → st2.renderpass = st.renderpass →
      st2.framebuffers f = st.framebuffers f → st2.descriptorSets f = st.descriptorSets f →
      mainRender cfg sc f st2 = mainRender cfg sc f st) := by
  refine ⟨mainRender_ok cfg sc f st h, ?_, ?_, ?_, ?_⟩
  · unfold recording
    rw [List.countP_append, List.countP_append, countP_isPushLightCount_prims]
    simp [List.countP_cons, Cmd.isPushLightCount]
  · unfold recording
    rw [List.countP_append, List.countP_append, countP_isDrawPrim_prims]
    simp [List.countP_cons, Cmd.isDrawPrim]
  · unfold updateRenderCommands
    rw [mainRender_ok cfg sc f st h]
    exact ⟨_, rfl, by simp⟩
  · intro st2 h1 h2 h3 h4 h5
    exact mainRender_congr cfg sc f st2 st h1 h2 h3 h4 h5

/-- Witness for C10: the example scene records eleven commands for slot 1. -/
theorem mainRender_records_sequence_witness :
    recordable exConfig (exScene 0) ∧
    mainRender exConfig (exScene 0) 1 (exState 0 0 0 0 0) =
      .ok [Cmd.bindPipeline 0, Cmd.bindDescriptorSets 0 0, Cmd.beginRenderPass 0 0,
           Cmd.pushLightCount 0 1,
           Cmd.pushPrimId 0 0,
           Cmd.pushMaterial 0 { textureAlbedo := 0, textureRoughness := 1, shading := 40 },
           Cmd.drawPrim 30,
           Cmd.pushPrimId 0 1,
           Cmd.pushMaterial 0 { textureAlbedo := 0, textureRoughness := 1, shading := 41 },
           Cmd.drawPrim 31,
           Cmd.endRenderPass] :=
  ⟨exScene_recordable 0,
    (mainRender_records_sequence exConfig (exScene 0) 1 (exState 0 0 0 0 0)
      (exScene_recordable 0)).1.trans rfl⟩

/-! ## Runs of consecutive frames -/

theorem renderFrom_cons (cfg : Config M) (c : Nat) (sc : Tanto_S_Scene M L G K)
    (rest : List (Tanto_S_Scene M L G K)) (st : Renderer M L G K maxLights) :
    renderFrom cfg c (sc :: rest) st =
      match syncScene cfg (c % cfg.TANTO_FRAME_COUNT) sc st with
      | .error e => .error e
      | .ok s => renderFrom cfg (c + 1) rest s := rfl

theorem renderFrom_cons_ok (cfg : Config M) (c : Nat) (sc : Tanto_S_Scene M L G K)
    (rest : List (Tanto_S_Scene M L G K)) (st st' : Renderer M L G K maxLights)
    (h : renderFrom cfg c (sc :: rest) st = .ok st') :
    ∃ s, syncScene cfg (c % cfg.TANTO_FRAME_COUNT) sc st = .ok s ∧
      renderFrom cfg (c + 1) rest s = .ok st' := by
  rw [renderFrom_cons] at h
  cases hs : syncScene cfg (c % cfg.TANTO_FRAME_COUNT) sc st with
  | error e => rw [hs] at h; cases h
  | ok s => rw [hs] at h; exact ⟨s, rfl, h⟩

/-- A run over scenes that all pass the assertions of `mainRender`
completes. -/
theorem renderFrom_ok_of_recordable (cfg : Config M) (l : List (Tanto_S_Scene M L G K)) :
    ∀ (c : Nat) (st : Renderer M L G K maxLights), (∀ sc, sc ∈ l → recordable cfg sc) →
      ∃ st', renderFrom cfg c l st = .ok st' := by
  induction l with
  | nil => exact fun _ st _ => ⟨st, rfl⟩
  | cons sc rest ih =>
    intro c st h
    obtain ⟨s, hs⟩ := syncScene_ok_of_recordable cfg (c % cfg.TANTO_FRAME_COUNT) sc st
      (h sc (List.mem_cons_self sc rest))
    obtain ⟨st', hst'⟩ := ih (c + 1) s (fun x hx => h x (List.mem_cons_of_mem sc hx))
    exact ⟨st', by rw [renderFrom_cons, hs]; exact hst'⟩

/-- A counter that follows the mark-then-decrement rule loses at most one per
frame and stays within [0, N]. -/
theorem renderFrom_counter_bounds (cfg : Config M) (ctr : Renderer M L G K maxLights → Nat)
    (bit : Nat) (hN : cfg.TANTO_FRAME_COUNT ≤ 255)
    (hctr : ∀ f (sc : Tanto_S_Scene M L G K) st st', syncScene cfg f sc st = .ok st' →
      ctr st' = dec (mark cfg.TANTO_FRAME_COUNT bit sc.dirt (ctr st)))
    (l : List (Tanto_S_Scene M L G K)) :
    ∀ (c : Nat) (st st' : Renderer M L G K maxLights), ctr st ≤ cfg.TANTO_FRAME_COUNT →
      renderFrom cfg c l st = .ok st' →
      ctr st - l.length ≤ ctr st' ∧ ctr st' ≤ cfg.TANTO_FRAME_COUNT := by
  induction l with
  | nil =>
    intro c st st' hb h
    cases h
    exact ⟨by simp, hb⟩
  | cons sc rest ih =>
    intro c st st' hb h
    obtain ⟨s, hs, hrest⟩ := renderFrom_cons_ok cfg c sc rest st st' h
    have hstep := dec_mark_le cfg.TANTO_FRAME_COUNT bit sc.dirt (ctr st) hN hb
    rw [← hctr _ _ _ _ hs] at hstep
    obtain ⟨h1, h2⟩ := ih (c + 1) s st' hstep.1 hrest
    refine ⟨?_, h2⟩
    simp only [List.length_cons]
    omega

/-- Without marks the counter loses exactly one per frame until it is 0. -/
theorem renderFrom_counter_clean (cfg : Config M) (ctr : Renderer M L G K maxLights → Nat)
    (bit : Nat)
    (hctr : ∀ f (sc : Tanto_S_Scene M L G K) st st', syncScene cfg f sc st = .ok st' →
      ctr st' = dec (mark cfg.TANTO_FRAME_COUNT bit sc.dirt (ctr st)))
    (l : List (Tanto_S_Scene M L G K)) :
    ∀ (c : Nat) (st st' : Renderer M L G K maxLights), ctr st < 256 →
      (∀ sc, sc ∈ l → sc.dirt &&& bit = 0) →
      renderFrom cfg c l st = .ok st' → ctr st' = ctr st - l.length := by
  induction l with
  | nil =>
    intro c st st' _ _ h
    cases h
    simp
  | cons sc rest ih =>
    intro c st st' hb hclean h
    obtain ⟨s, hs, hrest⟩ := renderFrom_cons_ok cfg c sc rest st st' h
    have hstep := hctr _ _ _ _ hs
    rw [mark_unset _ _ _ _ (hclean sc (List.mem_cons_self sc rest)), dec_eq _ hb] at hstep
    rw [ih (c + 1) s st' (by omega) (fun x hx => hclean x (List.mem_cons_of_mem sc hx)) hrest,
      hstep]
    simp only [List.length_cons]
    omega

/-- A run leaves the command sequence of a slot it does not service
unchanged. -/
theorem renderFrom_renderCommands (cfg : Config M) (s : Nat)
    (l : List (Tanto_S_Scene M L G K)) :
    ∀ (c : Nat) (st st' : Renderer M L G K maxLights),
      (∀ j, j < l.length → (c + j) % cfg.TANTO_FRAME_COUNT ≠ s) →
      renderFrom cfg c l st = .ok st' → st'.renderCommands s = st.renderCommands s := by
  induction l with
  | nil =>
    intro c st st' _ h
    cases h
    rfl
  | cons sc rest ih =>
    intro c st st' hne h
    obtain ⟨s1, hs, hrest⟩ := renderFrom_cons_ok cfg c sc rest st st' h
    have h0 : s ≠ c % cfg.TANTO_FRAME_COUNT := by
      have := hne 0 (by simp)
      simpa using this.symm
    rw [ih (c + 1) s1 st' (fun j hj => by
      have := hne (j + 1) (by simpa using hj)
      rwa [show c + (j + 1) = c + 1 + j by omega] at this) hrest]
    rw [(syncScene_buffers _ _ _ _ _ hs).2]
    split
    · exact Function.update_noteq h0 _ _
    · rfl

/-- Round-robin selection reaches every slot within N frames. -/
theorem roundRobin_covers (n c s : Nat) (hs : s < n) :
    ∃ k, k < n ∧ (c + k) % n = s := by
  have hn : 0 < n := by omega
  refine ⟨(s + n - c % n) % n, Nat.mod_lt _ hn, ?_⟩
  have hc : c % n < n := Nat.mod_lt _ hn
  rw [Nat.add_mod_mod, ← Nat.mod_add_mod]
  rw [show c % n + (s + n - c % n) = s + n by omega]
  rw [Nat.add_mod_right, Nat.mod_eq_of_lt hs]

/-- Within N - 1 frames after servicing a slot, round-robin selection does
not return to it. -/
theorem roundRobin_distinct (n c j : Nat) (hj : j + 1 < n) :
    (c + 1 + j) % n ≠ c % n := by
  intro h
  have h1 : Nat.ModEq n (c + (1 + j)) (c + 0) := by
    show (c + (1 + j)) % n = (c + 0) % n
    rw [show c + (1 + j) = c + 1 + j by omega, h, Nat.add_zero]
  have h2 : Nat.ModEq n (1 + j) 0 := Nat.ModEq.add_left_cancel' c h1
  have h3 : n ∣ 1 + j := (Nat.modEq_zero_iff_dvd).mp h2
  have := Nat.le_of_dvd (by omega) h3
  omega

/-! ## Re-recording (C5, C8, C6) -/

theorem rerecords_of_mark (cfg : Config M) (f : Nat) (sc : Tanto_S_Scene M L G K)
    (st : Renderer M L G K maxLights)
    (hm : mark cfg.TANTO_FRAME_COUNT cfg.TANTO_S_TEXTURES_BIT sc.dirt st.framesNeedUpdate ≠ 0) :
    Rerecords cfg f sc st := by
  refine ⟨fun st' h => ⟨?_, ?_⟩, syncScene_ok_of_recordable cfg f sc st,
    syncScene_error_of_not_recordable cfg f sc st hm⟩
  · rw [(syncScene_buffers _ _ _ _ _ h).2]
    simp [hm]
  · rw [syncScene_log_drop _ _ _ _ _ h]
    simp [hm]

theorem writesTextures_of_mark (cfg : Config M) (f : Nat) (sc : Tanto_S_Scene M L G K)
    (st : Renderer M L G K maxLights)
    (hm : mark cfg.TANTO_FRAME_COUNT cfg.TANTO_S_TEXTURES_BIT sc.dirt
      st.texturesNeedUpdate ≠ 0) :
    WritesTextures cfg f sc st := by
  intro st' h i hi
  constructor
  · rw [(syncScene_buffers _ _ _ _ _ h).1]
    simp [hm, hi]
  · rw [syncScene_log_drop _ _ _ _ _ h]
    simp [beforeFramesEvents, hm, hi]

theorem mark_ne_zero (n bit dirt old : Nat) (hn1 : 1 ≤ n) (hn : n ≤ 255)
    (h : dirt &&& bit ≠ 0 ∨ old ≠ 0) : mark n bit dirt old ≠ 0 := by
  unfold mark
  split
  · rw [Nat.mod_eq_of_lt (by omega)]
    omega
  · rename_i hb
    rcases h with h | h
    · exact absurd h hb
    · exact h

theorem take_length_le {α : Type} (k : Nat) (l : List α) : (l.take k).length ≤ k := by
  simp [List.length_take]

/-- C5: if the textures bit is set at a `syncScene` call, the marking step
stores N into both `texturesNeedUpdate` and `framesNeedUpdate`, and that call
and each of the following N - 1 calls (slot `(c0 + k) % N`, any scenes) write
every texture id below textureCount into the serviced slot's bindings and
re-record its command sequence; round-robin selection covers all N slots. -/
theorem textures_force_rerecord (cfg : Config M) (c0 : Nat) (sc0 : Tanto_S_Scene M L G K)
    (rest : List (Tanto_S_Scene M L G K)) (st : Renderer M L G K maxLights)
    (hN1 : 1 ≤ cfg.TANTO_FRAME_COUNT) (hN : cfg.TANTO_FRAME_COUNT ≤ 255)
    (htex : sc0.dirt &&& cfg.TANTO_S_TEXTURES_BIT ≠ 0) :
    ((syncScene_dirt cfg sc0 st).texturesNeedUpdate = cfg.TANTO_FRAME_COUNT ∧
     (syncScene_dirt cfg sc0 st).framesNeedUpdate = cfg.TANTO_FRAME_COUNT) ∧
    (∀ k sck stk, k < cfg.TANTO_FRAME_COUNT → (sc0 :: rest)[k]? = some sck →
      renderFrom cfg c0 ((sc0 :: rest).take k) st = .ok stk →
      WritesTextures cfg ((c0 + k) % cfg.TANTO_FRAME_COUNT) sck stk ∧
      Rerecords cfg ((c0 + k) % cfg.TANTO_FRAME_COUNT) sck stk) ∧
    (∀ s, s < cfg.TANTO_FRAME_COUNT → ∃ k, k < cfg.TANTO_FRAME_COUNT ∧
      (c0 + k) % cfg.TANTO_FRAME_COUNT = s) := by
  have hmod : cfg.TANTO_FRAME_COUNT % 256 = cfg.TANTO_FRAME_COUNT :=
    Nat.mod_eq_of_lt (by omega)
  refine ⟨?_, ?_, fun s hs => roundRobin_covers _ c0 s hs⟩
  · rw [syncScene_dirt_eq]
    simp [mark, htex, hmod]
  · intro k sck stk hk hget hrun
    cases k with
    | zero =>
      simp only [List.take_zero] at hrun
      cases hrun
      simp only [List.getElem?_cons_zero, Option.some.injEq] at hget
      subst hget
      exact ⟨writesTextures_of_mark _ _ _ _ (mark_ne_zero _ _ _ _ hN1 hN (Or.inl htex)),
        rerecords_of_mark _ _ _ _ (mark_ne_zero _ _ _ _ hN1 hN (Or.inl htex))⟩
    | succ k =>
      simp only [List.take_succ_cons] at hrun
      obtain ⟨s1, hs1, hrest⟩ := renderFrom_cons_ok cfg c0 sc0 _ st stk hrun
      obtain ⟨_, _, _, ht1, hf1⟩ := syncScene_counters _ _ _ _ _ hs1
      rw [mark_set _ _ _ _ htex, hmod, dec_eq _ (by omega)] at ht1 hf1
      have hlen := take_length_le k rest
      have bt := renderFrom_counter_bounds cfg (fun r => r.texturesNeedUpdate)
        cfg.TANTO_S_TEXTURES_BIT hN
        (fun f sc a b h => (syncScene_counters _ _ _ _ _ h).2.2.2.1)
        (rest.take k) (c0 + 1) s1 stk (by simp only; omega) hrest
      have bf := renderFrom_counter_bounds cfg (fun r => r.framesNeedUpdate)
        cfg.TANTO_S_TEXTURES_BIT hN
        (fun f sc a b h => (syncScene_counters _ _ _ _ _ h).2.2.2.2)
        (rest.take k) (c0 + 1) s1 stk (by simp only; omega) hrest
      simp only at bt bf
      exact ⟨writesTextures_of_mark _ _ _ _
          (mark_ne_zero _ _ _ _ hN1 hN (Or.inr (by omega))),
        rerecords_of_mark _ _ _ _ (mark_ne_zero _ _ _ _ hN1 hN (Or.inr (by omega)))⟩

theorem renderFrom_single (cfg : Config M) (c : Nat) (sc : Tanto_S_Scene M L G K)
    (st s : Renderer M L G K maxLights)
    (h : syncScene cfg (c % cfg.TANTO_FRAME_COUNT) sc st = .ok s) :
    renderFrom cfg c [sc] st = .ok s := by
  rw [renderFrom_cons, h]
  rfl

/-- Witness for C5: two slots, textures bit set at frame 0 (slot 0) and a
clean scene at frame 1 (slot 1); both frames rebind the textures and
re-record. -/
theorem textures_force_rerecord_witness :
    (1 ≤ exConfig.TANTO_FRAME_COUNT ∧ exConfig.TANTO_FRAME_COUNT ≤ 255 ∧
      (exScene 8).dirt &&& exConfig.TANTO_S_TEXTURES_BIT ≠ 0) ∧
    ∃ s1 s2, syncScene exConfig 0 (exScene 8) (exState 0 0 0 0 0) = .ok s1 ∧
      syncScene exConfig 1 (exScene 0) s1 = .ok s2 ∧
      s1.renderCommands 0 = recording (exScene 8) 0 (exState 0 0 0 0 0) ∧
      s2.renderCommands 1 = recording (exScene 0) 1 s1 ∧
      s2.textures 1 1 = some { layout := 1, view := 51, sampler := 60 } := by
  have h := textures_force_rerecord exConfig 0 (exScene 8) [exScene 0] (exState 0 0 0 0 0)
    (by decide) (by decide) (by decide)
  obtain ⟨_, hr0⟩ := h.2.1 0 (exScene 8) (exState 0 0 0 0 0) (by decide) rfl rfl
  obtain ⟨s1, hs1⟩ := hr0.2.1 (exScene_recordable 8)
  obtain ⟨hw1, hr1⟩ := h.2.1 1 (exScene 0) s1 (by decide) rfl
    (renderFrom_single exConfig 0 (exScene 8) _ s1 hs1)
  obtain ⟨s2, hs2⟩ := hr1.2.1 (exScene_recordable 0)
  exact ⟨⟨by decide, by decide, by decide⟩, s1, s2, hs1, hs2, (hr0.1 s1 hs1).1,
    (hr1.1 s2 hs2).1, (hw1 s2 hs2 1 (by decide)).1⟩

/-- C8: `onSwapchainRecreate` stores N into `framesNeedUpdate` whatever the
counter was, leaves the other four counters, the host memory of every slot's
regions, the texture bindings and the command sequences unchanged, and each of the next N `syncScene`
calls (any slots, any scenes) re-records the serviced slot's command
sequence. -/
theorem onSwapchainRecreate_invalidates (cfg : Config M) (ext : Created M L maxLights)
    (st : Renderer M L G K maxLights)
    (hN1 : 1 ≤ cfg.TANTO_FRAME_COUNT) (hN : cfg.TANTO_FRAME_COUNT ≤ 255) :
    ((onSwapchainRecreate cfg ext st).framesNeedUpdate = cfg.TANTO_FRAME_COUNT ∧
     (onSwapchainRecreate cfg ext st).cameraNeedUpdate = st.cameraNeedUpdate ∧
     (onSwapchainRecreate cfg ext st).xformsNeedUpdate = st.xformsNeedUpdate ∧
     (onSwapchainRecreate cfg ext st).lightsNeedUpdate = st.lightsNeedUpdate ∧
     (onSwapchainRecreate cfg ext st).texturesNeedUpdate = st.texturesNeedUpdate) ∧
    ((onSwapchainRecreate cfg ext st).hostMemory = st.hostMemory ∧
     (onSwapchainRecreate cfg ext st).textures = st.textures ∧
     (onSwapchainRecreate cfg ext st).renderCommands = st.renderCommands) ∧
    (∀ (c0 : Nat) (scenes : List (Tanto_S_Scene M L G K)) k sck stk,
      k < cfg.TANTO_FRAME_COUNT → scenes[k]? = some sck →
      renderFrom cfg c0 (scenes.take k) (onSwapchainRecreate cfg ext st) = .ok stk →
      Rerecords cfg ((c0 + k) % cfg.TANTO_FRAME_COUNT) sck stk) := by
  have hmod : cfg.TANTO_FRAME_COUNT % 256 = cfg.TANTO_FRAME_COUNT :=
    Nat.mod_eq_of_lt (by omega)
  have hfr : (onSwapchainRecreate cfg ext st).framesNeedUpdate = cfg.TANTO_FRAME_COUNT := hmod
  refine ⟨⟨hfr, rfl, rfl, rfl, rfl⟩, ⟨rfl, rfl, rfl⟩, ?_⟩
  intro c0 scenes k sck stk hk _ hrun
  have hlen := take_length_le k scenes
  have bf := renderFrom_counter_bounds cfg (fun r => r.framesNeedUpdate)
    cfg.TANTO_S_TEXTURES_BIT hN
    (fun f sc a b h => (syncScene_counters _ _ _ _ _ h).2.2.2.2)
    (scenes.take k) c0 (onSwapchainRecreate cfg ext st) stk (by simp only; omega) hrun
  simp only at bf
  exact rerecords_of_mark _ _ _ _ (mark_ne_zero _ _ _ _ hN1 hN (Or.inr (by omega)))

/-- Witness for C8: a swapchain rebuild with the command-sequence counter at
0 sets it to 2, and the next two frames re-record slots 0 and 1. -/
theorem onSwapchainRecreate_invalidates_witness :
    (1 ≤ exConfig.TANTO_FRAME_COUNT ∧ exConfig.TANTO_FRAME_COUNT ≤ 255) ∧
    (onSwapchainRecreate exConfig exCreated (exState 1 1 0 0 0)).framesNeedUpdate = 2 ∧
    (onSwapchainRecreate exConfig exCreated (exState 1 1 0 0 0)).cameraNeedUpdate = 1 ∧
    ∃ s1 s2,
      syncScene exConfig 0 (exScene 0)
        (onSwapchainRecreate exConfig exCreated (exState 1 1 0 0 0)) = .ok s1 ∧
      syncScene exConfig 1 (exScene 0) s1 = .ok s2 ∧
      s2.renderCommands 1 = recording (exScene 0) 1 s1 := by
  have h := onSwapchainRecreate_invalidates exConfig exCreated (exState 1 1 0 0 0)
    (by decide) (by decide)
  have hr0 := h.2.2 0 [exScene 0, exScene 0] 0 (exScene 0) _ (by decide) rfl rfl
  obtain ⟨s1, hs1⟩ := hr0.2.1 (exScene_recordable 0)
  have hr1 := h.2.2 0 [exScene 0, exScene 0] 1 (exScene 0) s1 (by decide) rfl
    (renderFrom_single exConfig 0 (exScene 0) _ s1 hs1)
  obtain ⟨s2, hs2⟩ := hr1.2.1 (exScene_recordable 0)
  exact ⟨⟨by decide, by decide⟩, h.1.1, h.1.2.1, s1, s2, hs1, hs2, (hr1.1 s2 hs2).1⟩

theorem dec_mark_lt (n bit dirt old : Nat) (hn1 : 1 ≤ n) (hn : n ≤ 255) (ho : old ≤ n) :
    dec (mark n bit dirt old) ≤ n - 1 := by
  unfold mark
  split
  · rw [dec_eq _ (Nat.mod_lt _ (by decide))]
    omega
  · rw [dec_eq _ (by omega)]
    omega

/-- Every counter of a reachable state lies in [0, N]. -/
theorem Reachable.counters_le (cfg : Config M) (hN : cfg.TANTO_FRAME_COUNT ≤ 255)
    (st : Renderer M L G K maxLights) (h : Reachable cfg st) :
    st.cameraNeedUpdate ≤ cfg.TANTO_FRAME_COUNT ∧
    st.framesNeedUpdate ≤ cfg.TANTO_FRAME_COUNT ∧
    st.xformsNeedUpdate ≤ cfg.TANTO_FRAME_COUNT ∧
    st.lightsNeedUpdate ≤ cfg.TANTO_FRAME_COUNT ∧
    st.texturesNeedUpdate ≤ cfg.TANTO_FRAME_COUNT := by
  have hmod : cfg.TANTO_FRAME_COUNT % 256 = cfg.TANTO_FRAME_COUNT :=
    Nat.mod_eq_of_lt (by omega)
  induction h with
  | start st hc hf hx hl ht => simp [hc, hf, hx, hl, ht]
  | init ext st _ ih =>
    obtain ⟨_, _, _, i4, _⟩ := ih
    exact ⟨hmod.le, hmod.le, hmod.le, i4, hmod.le⟩
  | bind pipeline st _ ih => exact ih
  | recreate ext st _ ih =>
    obtain ⟨i1, _, i3, i4, i5⟩ := ih
    exact ⟨i1, hmod.le, i3, i4, i5⟩
  | sync f sc st st' _ hs ih =>
    obtain ⟨i1, i2, i3, i4, i5⟩ := ih
    obtain ⟨c1, c2, c3, c4, c5⟩ := syncScene_counters cfg f sc st st' hs
    rw [c1, c2, c3, c4, c5]
    exact ⟨(dec_mark_le _ _ _ _ hN i1).1, (dec_mark_le _ _ _ _ hN i2).1,
      (dec_mark_le _ _ _ _ hN i3).1, (dec_mark_le _ _ _ _ hN i4).1,
      (dec_mark_le _ _ _ _ hN i5).1⟩

/-- C6: under round-robin selection over N slots, between two consecutive
services of slot `c0 % N` (the first at frame `c0` with any scene, then N - 1
frames on the other slots, then the second service at frame `c0 + N`), if no
call after the first service saw the textures bit, the second service calls
`updateRenderCommands` for no slot and the slot's command sequence is the one
left by the first service, whatever the camera, xforms and lights bits and
counters are; the second service completes on every scene. -/
theorem rerecord_avoided (cfg : Config M) (c0 : Nat) (sc0 : Tanto_S_Scene M L G K)
    (rest : List (Tanto_S_Scene M L G K)) (scN : Tanto_S_Scene M L G K)
    (st : Renderer M L G K maxLights)
    (hN1 : 1 ≤ cfg.TANTO_FRAME_COUNT) (hN : cfg.TANTO_FRAME_COUNT ≤ 255)
    (hfr : st.framesNeedUpdate ≤ cfg.TANTO_FRAME_COUNT)
    (hlen : rest.length + 1 = cfg.TANTO_FRAME_COUNT)
    (hclean : ∀ sc, sc ∈ rest → sc.dirt &&& cfg.TANTO_S_TEXTURES_BIT = 0)
    (hcleanN : scN.dirt &&& cfg.TANTO_S_TEXTURES_BIT = 0) :
    (c0 + cfg.TANTO_FRAME_COUNT) % cfg.TANTO_FRAME_COUNT = c0 % cfg.TANTO_FRAME_COUNT ∧
    (∀ st1 st2, syncScene cfg (c0 % cfg.TANTO_FRAME_COUNT) sc0 st = .ok st1 →
      renderFrom cfg (c0 + 1) rest st1 = .ok st2 →
      (∃ st3, syncScene cfg ((c0 + cfg.TANTO_FRAME_COUNT) % cfg.TANTO_FRAME_COUNT) scN st2 =
        .ok st3) ∧
      ∀ st3, syncScene cfg ((c0 + cfg.TANTO_FRAME_COUNT) % cfg.TANTO_FRAME_COUNT) scN st2 =
          .ok st3 →
        st3.renderCommands (c0 % cfg.TANTO_FRAME_COUNT) =
          st1.renderCommands (c0 % cfg.TANTO_FRAME_COUNT) ∧
        (∀ g, Event.updateRenderCommands g ∉ st3.log.drop st2.log.length) ∧
        st3.framesNeedUpdate = 0) ∧
    (recordable cfg sc0 → (∀ sc, sc ∈ rest → recordable cfg sc) →
      ∃ st1 st2, syncScene cfg (c0 % cfg.TANTO_FRAME_COUNT) sc0 st = .ok st1 ∧
        renderFrom cfg (c0 + 1) rest st1 = .ok st2) := by
  refine ⟨Nat.add_mod_right _ _, ?_, ?_⟩
  · intro st1 st2 h1 h2
    have hf1 : st1.framesNeedUpdate ≤ cfg.TANTO_FRAME_COUNT - 1 := by
      rw [(syncScene_counters _ _ _ _ _ h1).2.2.2.2]
      exact dec_mark_lt _ _ _ _ hN1 hN hfr
    have hf2 : st2.framesNeedUpdate = 0 := by
      have := renderFrom_counter_clean cfg (fun r => r.framesNeedUpdate)
        cfg.TANTO_S_TEXTURES_BIT
        (fun f sc a b h => (syncScene_counters _ _ _ _ _ h).2.2.2.2)
        rest (c0 + 1) st1 st2 (by simp only; omega) hclean h2
      simp only at this
      omega
    have hm : mark cfg.TANTO_FRAME_COUNT cfg.TANTO_S_TEXTURES_BIT scN.dirt
        st2.framesNeedUpdate = 0 := by
      rw [mark_unset _ _ _ _ hcleanN, hf2]
    have hr2 : st2.renderCommands (c0 % cfg.TANTO_FRAME_COUNT) =
        st1.renderCommands (c0 % cfg.TANTO_FRAME_COUNT) :=
      renderFrom_renderCommands cfg _ rest (c0 + 1) st1 st2
        (fun j hj => roundRobin_distinct _ c0 j (by omega)) h2
    constructor
    · rw [syncScene_closed]
      simp only [ne_eq, hm, not_true_eq_false, if_false]
      exact ⟨_, rfl⟩
    · intro st3 h3
      refine ⟨?_, ?_, ?_⟩
      · rw [(syncScene_buffers _ _ _ _ _ h3).2]
        simp only [ne_eq, hm, not_true_eq_false, if_false]
        exact hr2
      · intro g hg
        rw [syncScene_log_drop _ _ _ _ _ h3] at hg
        simp only [ne_eq, hm, not_true_eq_false, if_false, List.append_nil] at hg
        exact (beforeFramesEvents_frame _ _ _ _ _ hg).2 g rfl
      · rw [(syncScene_counters _ _ _ _ _ h3).2.2.2.2, hm]
        rfl
  · intro hr0 hrest
    obtain ⟨st1, h1⟩ := syncScene_ok_of_recordable cfg (c0 % cfg.TANTO_FRAME_COUNT) sc0 st hr0
    obtain ⟨st2, h2⟩ := renderFrom_ok_of_recordable cfg rest (c0 + 1) st1 hrest
    exact ⟨st1, st2, h1, h2⟩

/-- Witness for C6: two slots; slot 0 is recorded at frame 0 (textures bit
set), slot 1 is serviced at frame 1, and at frame 2 slot 0 is serviced with
the camera, lights and xforms bits set on a scene that could not be recorded:
its command sequence is kept. -/
theorem rerecord_avoided_witness :
    (1 ≤ exConfig.TANTO_FRAME_COUNT ∧ exConfig.TANTO_FRAME_COUNT ≤ 255 ∧
      (exState 0 2 0 0 0).framesNeedUpdate ≤ exConfig.TANTO_FRAME_COUNT ∧
      [exScene 7].length + 1 = exConfig.TANTO_FRAME_COUNT) ∧
    ∃ st1 st2 st3, syncScene exConfig 0 (exScene 8) (exState 0 2 0 0 0) = .ok st1 ∧
      renderFrom exConfig 1 [exScene 7] st1 = .ok st2 ∧
      syncScene exConfig 0 { exBadScene with dirt := 7 } st2 = .ok st3 ∧
      st3.renderCommands 0 = st1.renderCommands 0 ∧
      st3.framesNeedUpdate = 0 := by
  have h := rerecord_avoided exConfig 0 (exScene 8) [exScene 7] { exBadScene with dirt := 7 }
    (exState 0 2 0 0 0) (by decide) (by decide) (by decide) (by decide)
    (by intro sc hsc; simp only [List.mem_singleton] at hsc; subst hsc; decide) (by decide)
  obtain ⟨st1, st2, h1, h2⟩ := h.2.2 (exScene_recordable 8)
    (by intro sc hsc; simp only [List.mem_singleton] at hsc; subst hsc
        exact exScene_recordable 7)
  obtain ⟨⟨st3, h3⟩, hall⟩ := h.2.1 st1 st2 h1 h2
  obtain ⟨k1, _, k3⟩ := hall st3 h3
  exact ⟨⟨by decide, by decide, by decide, by decide⟩, st1, st2, st3, h1, h2, h3, k1, k3⟩

/-! ## Full propagation (C1) -/

/-- Over scenes within the array bounds a run keeps the host memory
described. -/
theorem renderFrom_hostMemory_some (cfg : Config M) (l : List (Tanto_S_Scene M L G K)) :
    ∀ (c : Nat) (st st' : Renderer M L G K maxLights),
      (∀ sc, sc ∈ l → sc.primCount ≤ MAX_PRIM_COUNT ∧ sc.lightCount ≤ maxLights) →
      (∃ m, st.hostMemory = some m) → renderFrom cfg c l st = .ok st' →
      ∃ m', st'.hostMemory = some m' := by
  induction l with
  | nil =>
    intro c st st' _ hm h
    cases h
    exact hm
  | cons sc rest ih =>
    intro c st st' hb hm h
    obtain ⟨s1, hs, hrest⟩ := renderFrom_cons_ok cfg c sc rest st st' h
    obtain ⟨m, hm⟩ := hm
    have hsc := hb sc (List.mem_cons_self sc rest)
    exact ih (c + 1) s1 st' (fun x hx => hb x (List.mem_cons_of_mem sc hx))
      ⟨_, syncScene_hostMemory_in_bounds cfg _ sc st s1 m hsc.1 hsc.2 hm hs⟩ hrest

/-- A category whose counter follows the mark-then-decrement rule, whose
write makes the serviced slot `Good` and whose other effects keep `Good`
slots `Good`, reaches every slot the run services while the counter lasts. -/
theorem renderFrom_propagates (cfg : Config M)
    (hN1 : 1 ≤ cfg.TANTO_FRAME_COUNT) (hN : cfg.TANTO_FRAME_COUNT ≤ 255)
    (ctr : Renderer M L G K maxLights → Nat) (bit : Nat)
    (Good : Renderer M L G K maxLights → Nat → Prop)
    (content : Tanto_S_Scene M L G K → Prop)
    (hctr : ∀ f (sc : Tanto_S_Scene M L G K) st st', syncScene cfg f sc st = .ok st' →
      ctr st' = dec (mark cfg.TANTO_FRAME_COUNT bit sc.dirt (ctr st)))
    (hwrite : ∀ f (sc : Tanto_S_Scene M L G K) st st', content sc →
      syncScene cfg f sc st = .ok st' →
      mark cfg.TANTO_FRAME_COUNT bit sc.dirt (ctr st) ≠ 0 → Good st' f)
    (hkeep : ∀ f g (sc : Tanto_S_Scene M L G K) st st', content sc →
      syncScene cfg f sc st = .ok st' → Good st g → Good st' g)
    (l : List (Tanto_S_Scene M L G K)) :
    ∀ (c : Nat) (st st' : Renderer M L G K maxLights), l.length ≤ cfg.TANTO_FRAME_COUNT →
      (∀ sc, sc ∈ l → content sc) →
      ((l.length ≤ ctr st ∧ ctr st < 256) ∨
        ∃ sc0 rest, l = sc0 :: rest ∧ sc0.dirt &&& bit ≠ 0) →
      renderFrom cfg c l st = .ok st' →
      (∀ j, j < l.length → Good st' ((c + j) % cfg.TANTO_FRAME_COUNT)) ∧
      (∀ g, Good st g → Good st' g) := by
  induction l with
  | nil =>
    intro c st st' _ _ _ h
    cases h
    exact ⟨fun j hj => by simp at hj, fun _ hg => hg⟩
  | cons sc rest ih =>
    intro c st st' hlen hcont hstart h
    obtain ⟨s1, hs, hrest⟩ := renderFrom_cons_ok cfg c sc rest st st' h
    have hcsc := hcont sc (List.mem_cons_self sc rest)
    simp only [List.length_cons] at hlen
    have hmod : cfg.TANTO_FRAME_COUNT % 256 = cfg.TANTO_FRAME_COUNT :=
      Nat.mod_eq_of_lt (by omega)
    have hfacts : mark cfg.TANTO_FRAME_COUNT bit sc.dirt (ctr st) ≠ 0 ∧
        rest.length ≤ ctr s1 ∧ ctr s1 < 256 := by
      rw [hctr _ _ _ _ hs]
      by_cases hb : sc.dirt &&& bit = 0
      · rcases hstart with ⟨h1, h2⟩ | ⟨sc0, rest0, heq, hset⟩
        · simp only [List.length_cons] at h1
          rw [mark_unset _ _ _ _ hb, dec_eq _ h2]
          omega
        · obtain ⟨rfl, _⟩ := List.cons.inj heq
          exact absurd hb hset
      · rw [mark_set _ _ _ _ hb, hmod, dec_eq _ (by omega)]
        omega
    obtain ⟨i1, i2⟩ := ih (c + 1) s1 st' (by omega)
      (fun x hx => hcont x (List.mem_cons_of_mem sc hx)) (Or.inl hfacts.2) hrest
    constructor
    · intro j hj
      cases j with
      | zero => exact i2 _ (hwrite _ _ _ _ hcsc hs hfacts.1)
      | succ j =>
        have := i1 j (by simpa using hj)
        rwa [show c + 1 + j = c + (j + 1) by omega] at this
    · intro g hg
      exact i2 g (hkeep _ _ _ _ _ hcsc hs hg)

/-- C1: with 1 ≤ N ≤ 255 and round-robin slot selection, from every starting
state, a completed run of N frames whose first frame sees a category's dirt
bit (camera, xforms or lights) and during which that category's scene content
stays the same leaves every one of the N slots' region for that category
holding the scene's value: the camera block, the transform cells
0..primCount-1, the light cells 0..lightCount-1. The host memory is the one
left by writes that all stayed inside their arrays; that is the case whenever
it was so at the start and every scene of the run has at most MAX_PRIM_COUNT
primitives and at most TANTO_S_MAX_LIGHTS lights. The run completes on scenes
that pass the assertions of `mainRender`. -/
theorem full_propagation (cfg : Config M) (c0 : Nat) (sc0 : Tanto_S_Scene M L G K)
    (rest : List (Tanto_S_Scene M L G K)) (st : Renderer M L G K maxLights)
    (hN1 : 1 ≤ cfg.TANTO_FRAME_COUNT) (hN : cfg.TANTO_FRAME_COUNT ≤ 255)
    (hlen : rest.length + 1 = cfg.TANTO_FRAME_COUNT) :
    (∀ st' m', renderFrom cfg c0 (sc0 :: rest) st = .ok st' → st'.hostMemory = some m' →
      (sc0.dirt &&& cfg.TANTO_S_CAMERA_BIT ≠ 0 →
        (∀ sc, sc ∈ rest → sc.camera = sc0.camera) →
        ∀ i, i < cfg.TANTO_FRAME_COUNT →
          m'.cameraBuffers i =
            { view := cfg.m_Invert4x4 sc0.camera, proj := cfg.m_BuildPerspective,
              camera := sc0.camera }) ∧
      (sc0.dirt &&& cfg.TANTO_S_XFORMS_BIT ≠ 0 →
        (∀ sc, sc ∈ rest → sc.primCount = sc0.primCount ∧
          ∀ p, p < sc0.primCount → sc.xforms p = sc0.xforms p) →
        sc0.primCount ≤ MAX_PRIM_COUNT ∧
        ∀ i, i < cfg.TANTO_FRAME_COUNT → ∀ q : Fin MAX_PRIM_COUNT, q.val < sc0.primCount →
          (m'.xformsBuffers i).xform q = sc0.xforms q.val) ∧
      (sc0.dirt &&& cfg.TANTO_S_LIGHTS_BIT ≠ 0 →
        (∀ sc, sc ∈ rest → sc.lightCount = sc0.lightCount ∧
          ∀ p, p < sc0.lightCount → sc.lights p = sc0.lights p) →
        sc0.lightCount ≤ maxLights ∧
        ∀ i, i < cfg.TANTO_FRAME_COUNT → ∀ q : Fin maxLights, q.val < sc0.lightCount →
          (m'.lightsBuffers i).light q = sc0.lights q.val)) ∧
    ((∃ m0, st.hostMemory = some m0) →
      (∀ sc, sc ∈ sc0 :: rest →
        sc.primCount ≤ MAX_PRIM_COUNT ∧ sc.lightCount ≤ maxLights) →
      ∀ st', renderFrom cfg c0 (sc0 :: rest) st = .ok st' →
        ∃ m', st'.hostMemory = some m') ∧
    ((∀ sc, sc ∈ sc0 :: rest → recordable cfg sc) →
      ∃ st', renderFrom cfg c0 (sc0 :: rest) st = .ok st') := by
  refine ⟨fun st' m' hrun hm' => ⟨?_, ?_, ?_⟩,
    fun hm0 hfit st' hrun =>
      renderFrom_hostMemory_some cfg (sc0 :: rest) c0 st st' hfit hm0 hrun,
    renderFrom_ok_of_recordable cfg (sc0 :: rest) c0 st⟩
  · intro hbit hsame i hi
    obtain ⟨k, hk, rfl⟩ := roundRobin_covers _ c0 i hi
    have key := renderFrom_propagates cfg hN1 hN (fun r => r.cameraNeedUpdate)
      cfg.TANTO_S_CAMERA_BIT
      (fun r g => ∀ m, r.hostMemory = some m → m.cameraBuffers g =
        { view := cfg.m_Invert4x4 sc0.camera, proj := cfg.m_BuildPerspective,
          camera := sc0.camera })
      (fun sc => sc.camera = sc0.camera)
      (fun f sc a b h => (syncScene_counters _ _ _ _ _ h).1)
      (fun f sc a b hc h hmk m hm => by
        obtain ⟨m1, _, rfl, _, _⟩ := syncScene_hostMemory_some cfg f sc a b m h hm
        rw [written_cameraBuffers, if_pos ⟨hmk, rfl⟩, hc])
      (fun f g sc a b hc h hg m hm => by
        obtain ⟨m1, hm1, rfl, _, _⟩ := syncScene_hostMemory_some cfg f sc a b m h hm
        rw [written_cameraBuffers]
        split
        · rw [hc]
        · exact hg m1 hm1)
      (sc0 :: rest) c0 st st' (by simp only [List.length_cons]; omega)
      (fun sc hsc => by
        rcases List.mem_cons.mp hsc with rfl | hsc
        · rfl
        · exact hsame sc hsc)
      (Or.inr ⟨sc0, rest, rfl, hbit⟩) hrun
    exact key.1 k (by simp only [List.length_cons]; omega) m' hm'
  · intro hbit hsame
    have hN0 : 0 < cfg.TANTO_FRAME_COUNT := by omega
    have key := renderFrom_propagates cfg hN1 hN (fun r => r.xformsNeedUpdate)
      cfg.TANTO_S_XFORMS_BIT
      (fun r g => ∀ m, r.hostMemory = some m → sc0.primCount ≤ MAX_PRIM_COUNT ∧
        ∀ q : Fin MAX_PRIM_COUNT, q.val < sc0.primCount →
          (m.xformsBuffers g).xform q = sc0.xforms q.val)
      (fun sc => sc.primCount = sc0.primCount ∧
        ∀ p, p < sc0.primCount → sc.xforms p = sc0.xforms p)
      (fun f sc a b h => (syncScene_counters _ _ _ _ _ h).2.1)
      (fun f sc a b hc h hmk m hm => by
        obtain ⟨m1, _, rfl, hb, _⟩ := syncScene_hostMemory_some cfg f sc a b m h hm
        refine ⟨by rw [← hc.1]; exact hb hmk, fun q hq => ?_⟩
        rw [written_xform, if_pos ⟨hmk, rfl, by rw [hc.1]; exact hq⟩]
        exact hc.2 q.val hq)
      (fun f g sc a b hc h hg m hm => by
        obtain ⟨m1, hm1, rfl, _, _⟩ := syncScene_hostMemory_some cfg f sc a b m h hm
        refine ⟨(hg m1 hm1).1, fun q hq => ?_⟩
        rw [written_xform]
        split
        · exact hc.2 q.val hq
        · exact (hg m1 hm1).2 q hq)
      (sc0 :: rest) c0 st st' (by simp only [List.length_cons]; omega)
      (fun sc hsc => by
        rcases List.mem_cons.mp hsc with rfl | hsc
        · exact ⟨rfl, fun _ _ => rfl⟩
        · exact hsame sc hsc)
      (Or.inr ⟨sc0, rest, rfl, hbit⟩) hrun
    refine ⟨(key.1 0 (by simp) m' hm').1, fun i hi q hq => ?_⟩
    obtain ⟨k, hk, rfl⟩ := roundRobin_covers _ c0 i hi
    exact (key.1 k (by simp only [List.length_cons]; omega) m' hm').2 q hq
  · intro hbit hsame
    have key := renderFrom_propagates cfg hN1 hN (fun r => r.lightsNeedUpdate)
      cfg.TANTO_S_LIGHTS_BIT
      (fun r g => ∀ m, r.hostMemory = some m → sc0.lightCount ≤ maxLights ∧
        ∀ q : Fin maxLights, q.val < sc0.lightCount →
          (m.lightsBuffers g).light q = sc0.lights q.val)
      (fun sc => sc.lightCount = sc0.lightCount ∧
        ∀ p, p < sc0.lightCount → sc.lights p = sc0.lights p)
      (fun f sc a b h => (syncScene_counters _ _ _ _ _ h).2.2.1)
      (fun f sc a b hc h hmk m hm => by
        obtain ⟨m1, _, rfl, _, hb⟩ := syncScene_hostMemory_some cfg f sc a b m h hm
        refine ⟨by rw [← hc.1]; exact hb hmk, fun q hq => ?_⟩
        rw [written_light, if_pos ⟨hmk, rfl, by rw [hc.1]; exact hq⟩]
        exact hc.2 q.val hq)
      (fun f g sc a b hc h hg m hm => by
        obtain ⟨m1, hm1, rfl, _, _⟩ := syncScene_hostMemory_some cfg f sc a b m h hm
        refine ⟨(hg m1 hm1).1, fun q hq => ?_⟩
        rw [written_light]
        split
        · exact hc.2 q.val hq
        · exact (hg m1 hm1).2 q hq)
      (sc0 :: rest) c0 st st' (by simp only [List.length_cons]; omega)
      (fun sc hsc => by
        rcases List.mem_cons.mp hsc with rfl | hsc
        · exact ⟨rfl, fun _ _ => rfl⟩
        · exact hsame sc hsc)
      (Or.inr ⟨sc0, rest, rfl, hbit⟩) hrun
    refine ⟨(key.1 0 (by simp) m' hm').1, fun i hi q hq => ?_⟩
    obtain ⟨k, hk, rfl⟩ := roundRobin_covers _ c0 i hi
    exact (key.1 k (by simp only [List.length_cons]; omega) m' hm').2 q hq

/-- Witness for C1: two slots, the run starts at slot 1 with the camera,
lights and xforms bits set and continues on slot 0 with a clean mask; both
slots end with the scene's camera, transforms and light. -/
theorem full_propagation_witness :
    (1 ≤ exConfig.TANTO_FRAME_COUNT ∧ exConfig.TANTO_FRAME_COUNT ≤ 255 ∧
      [exScene 0].length + 1 = exConfig.TANTO_FRAME_COUNT) ∧
    ∃ st' m', renderFrom exConfig 1 [exScene 7, exScene 0] (exState 0 0 0 0 0) = .ok st' ∧
      st'.hostMemory = some m' ∧
      m'.cameraBuffers 0 = { view := 105, proj := 7, camera := 5 } ∧
      m'.cameraBuffers 1 = { view := 105, proj := 7, camera := 5 } ∧
      (m'.xformsBuffers 0).xform ⟨1, by decide⟩ = 11 ∧
      (m'.xformsBuffers 1).xform ⟨1, by decide⟩ = 11 ∧
      (m'.lightsBuffers 0).light 0 = 20 ∧ (m'.lightsBuffers 1).light 0 = 20 := by
  have hfit : ∀ sc, sc ∈ [exScene 7, exScene 0] →
      sc.primCount ≤ MAX_PRIM_COUNT ∧ sc.lightCount ≤ 8 := by
    intro sc hsc
    simp only [List.mem_cons, List.mem_singleton, List.not_mem_nil, or_false] at hsc
    rcases hsc with rfl | rfl <;> exact ⟨by decide, by decide⟩
  have h := full_propagation exConfig 1 (exScene 7) [exScene 0] (exState 0 0 0 0 0)
    (by decide) (by decide) (by decide)
  have hrec : ∀ sc, sc ∈ [exScene 7, exScene 0] → recordable exConfig sc := by
    intro sc hsc
    simp only [List.mem_cons, List.mem_singleton, List.not_mem_nil, or_false] at hsc
    rcases hsc with rfl | rfl
    · exact exScene_recordable 7
    · exact exScene_recordable 0
  obtain ⟨st', hst'⟩ := h.2.2 hrec
  obtain ⟨m', hm'⟩ := h.2.1 ⟨_, rfl⟩ hfit st' hst'
  obtain ⟨hcam, hxf, hli⟩ := h.1 st' m' hst' hm'
  have hcam2 := hcam (by decide)
    (by intro sc hsc; simp only [List.mem_singleton] at hsc; subst hsc; rfl)
  have hxf2 := (hxf (by decide)
    (by intro sc hsc; simp only [List.mem_singleton] at hsc; subst hsc
        exact ⟨rfl, fun _ _ => rfl⟩)).2
  have hli2 := (hli (by decide)
    (by intro sc hsc; simp only [List.mem_singleton] at hsc; subst hsc
        exact ⟨rfl, fun _ _ => rfl⟩)).2
  exact ⟨⟨by decide, by decide, by decide⟩,
    st', m', hst', hm', hcam2 0 (by decide), hcam2 1 (by decide),
    hxf2 0 (by decide) ⟨1, by decide⟩ (by decide),
    hxf2 1 (by decide) ⟨1, by decide⟩ (by decide),
    hli2 0 (by decide) 0 (by decide), hli2 1 (by decide) 0 (by decide)⟩

end Render
